import Mathlib

/-!
# Verification of the pythales HSM simulator (TypeScript port)

Shallow embedding of the protocol core of the Thales-HSM simulator:
byte buffers are `List Nat` (each entry < 256 in well-formed data), the
external DES-EDE3-ECB primitive is an explicit `Cipher` parameter, and
fallible code returns `Except Unit _` / `Option _`.

Source files embedded:
  * `src/utils/crypto.ts`   (`CryptoUtils`, `MessageUtils`)
  * `src/utils/pin.ts`      (`PinUtils`)
  * `src/messages/base.ts`  (`BaseMessage` / `OutgoingMessage`)
  * `src/messages/commands.ts` (per-command field parsers)
  * `src/hsm.ts`            (`HSM` handlers, dispatch and session loop)
-/

set_option maxHeartbeats 1000000
set_option maxRecDepth 100000

abbrev Bytes := List Nat

/-- ASCII bytes of a string literal (models `Buffer.from(str)`). -/
def ascii (s : String) : Bytes := s.data.map Char.toNat

/-- ASCII decoding of a byte buffer (models `buffer.toString()`). -/
def decodeAscii (b : Bytes) : List Char := b.map (fun n => Char.ofNat n)

/-- JS `buffer.subarray(s, e)`: the slice `[s, e)`, clamped to the buffer. -/
def sub (d : Bytes) (s e : Nat) : Bytes := (d.take e).drop s

/-- JS `buffer[i]`: reading out of range yields `undefined`; the parsers only
ever compare that value against byte constants, so an out-of-band sentinel
`0x100` (never a byte) models `undefined` faithfully for those comparisons. -/
def peek (d : Bytes) (i : Nat) : Nat := d.getD i 0x100

/-- JS `buffer.readUInt16BE(0)` (callers check `length ≥ 2` first). -/
def readU16BE (d : Bytes) : Nat := 256 * d.getD 0 0 + d.getD 1 0

/-- The `writeUInt16BE` big-endian encoding (all values built in this
development are < 2^16; Node would throw beyond that). -/
def u16be (n : Nat) : Bytes := [(n / 256) % 256, n % 256]

/-- Helper for `Buffer.indexOf(v, start)`: first index (counting from 0 in
the given list) holding `v`. -/
def firstIdxFrom : Bytes → Nat → Nat → Option Nat
  | [], _, _ => none
  | b :: rest, v, i => if b = v then some i else firstIdxFrom rest v (i + 1)

/-- JS `buffer.indexOf(v, start)`, as an `Option` instead of `-1`. -/
def jsIndexOf (d : Bytes) (v : Nat) (start : Nat) : Option Nat :=
  (firstIdxFrom (d.drop start) v 0).map (· + start)

/-- Lowercase hex digit (used by `buffer.toString('hex')`). -/
def hexLower (n : Nat) : Char := "0123456789abcdef".data.getD n 'x'

/-- Uppercase hex digit. -/
def hexUpper (n : Nat) : Char := "0123456789ABCDEF".data.getD n 'X'

/-- Numeric value of a hex digit character, as `parseInt(c, 16)` computes it
on the single characters this code feeds it (rendered hex digits; the
default 0 branch is never reached on those). -/
def hexVal (c : Char) : Nat :=
  if '0' ≤ c ∧ c ≤ '9' then c.toNat - 48
  else if 'A' ≤ c ∧ c ≤ 'F' then c.toNat - 55
  else if 'a' ≤ c ∧ c ≤ 'f' then c.toNat - 87
  else 0

/-- JS `buffer.toString('hex')`: two lowercase hex chars per byte. -/
def bufferToHexLower (b : Bytes) : List Char :=
  b.flatMap (fun n => [hexLower ((n / 16) % 16), hexLower (n % 16)])

/-- JS `buffer.toString('hex').toUpperCase()`: two uppercase hex chars per byte. -/
def bufferToHexUpper (b : Bytes) : List Char :=
  b.flatMap (fun n => [hexUpper ((n / 16) % 16), hexUpper (n % 16)])

/-- JS `Buffer.from(str, 'hex')`: consecutive hex-digit pairs to bytes (a
trailing odd character is dropped, as in Node). Only ever applied to
valid renderings in the embedded code. -/
def bufferFromHex : List Char → Bytes
  | c1 :: c2 :: rest => (16 * hexVal c1 + hexVal c2) :: bufferFromHex rest
  | _ => []

/-- The idiom `Buffer.from(b.toString('hex'), 'hex')` that the HSM code
applies to key material before ciphering: a bytes→hex→bytes round trip. -/
def hexRT (b : Bytes) : Bytes := bufferFromHex (bufferToHexLower b)

theorem hexVal_hexLower (k : Nat) (hk : k < 16) : hexVal (hexLower k) = k := by
  interval_cases k <;> decide

theorem hexRT_eq (b : Bytes) (hb : ∀ x ∈ b, x < 256) : hexRT b = b := by
  induction b with
  | nil => rfl
  | cons n rest ih =>
    have hn : n < 256 := hb n (List.mem_cons_self n rest)
    have hrest : ∀ x ∈ rest, x < 256 := fun x hx => hb x (List.mem_cons_of_mem n hx)
    have h1 : (n / 16) % 16 < 16 := Nat.mod_lt _ (by norm_num)
    have h2 : n % 16 < 16 := Nat.mod_lt _ (by norm_num)
    have e1 : hexVal (hexLower ((n / 16) % 16)) = (n / 16) % 16 := hexVal_hexLower _ h1
    have e2 : hexVal (hexLower (n % 16)) = n % 16 := hexVal_hexLower _ h2
    have hdiv : n / 16 < 16 := by omega
    have e3 : (n / 16) % 16 = n / 16 := Nat.mod_eq_of_lt hdiv
    simp only [hexRT, bufferToHexLower, List.flatMap_cons, List.cons_append,
      List.nil_append] at *
    show (16 * hexVal (hexLower ((n / 16) % 16)) + hexVal (hexLower (n % 16)))
        :: bufferFromHex (rest.flatMap _) = n :: rest
    rw [e1, e2, e3]
    have : 16 * (n / 16) + n % 16 = n := by omega
    rw [this]
    exact congrArg (n :: ·) (ih hrest)

/-! ## CryptoUtils (src/utils/crypto.ts)

The DES-EDE3-ECB primitive comes from Node's `crypto` module — it is not
code of this repository — so it enters the model as an explicit `Cipher`
parameter supplying total `enc`/`dec` functions. -/

structure Cipher where
  enc : Bytes → Bytes → Bytes
  dec : Bytes → Bytes → Bytes

namespace CryptoUtils

/-- The parity accumulation loop `for j in js: parity ^= (byte >> j) & 1`. -/
def parityFold (b : Nat) (js : List Nat) : Nat :=
  js.foldl (fun p j => p ^^^ ((b >>> j) &&& 1)) 0

/-- Models `CryptoUtils.modifyKeyParity` (crypto.ts lines 28-39): for each byte
compute the XOR of bits 1..7 and store it in bit 0. -/
def modifyKeyParity (key : Bytes) : Bytes :=
  key.map (fun b => (b &&& 0xFE) ||| parityFold b [1, 2, 3, 4, 5, 6, 7])

/-- Models `CryptoUtils.checkKeyParity` (crypto.ts lines 41-53): every byte must
have XOR of all 8 bits equal to 1. -/
def checkKeyParity (key : Bytes) : Bool :=
  key.all (fun b => parityFold b [0, 1, 2, 3, 4, 5, 6, 7] == 1)

/-- Models `CryptoUtils.getKeyCheckValue` (crypto.ts lines 55-59): encrypt 8 zero
bytes and keep the leading `length` bytes (`subarray` clamps, so at most
the ciphertext itself). -/
def getKeyCheckValue (c : Cipher) (key : Bytes) (length : Nat) : Bytes :=
  (c.enc key (List.replicate 8 0)).take length

end CryptoUtils

/-- Every byte modified by `modifyKeyParity` fails the all-8-bit parity
check: its bit 0 equals the XOR of its bits 1..7, so the XOR of all 8 bits
is 0, never 1. -/
theorem modified_byte_fails_check (b : Nat) (hb : b < 256) :
    (CryptoUtils.parityFold ((b &&& 0xFE) ||| CryptoUtils.parityFold b [1, 2, 3, 4, 5, 6, 7])
      [0, 1, 2, 3, 4, 5, 6, 7] == 1) = false := by
  revert b
  decide

/-- C1 claim: `checkKeyParity (modifyKeyParity x) = true`.  The code makes
it FALSE for every non-empty byte buffer. -/
theorem checkKeyParity_modifyKeyParity_false (key : Bytes)
    (hne : key ≠ []) (hb : ∀ x ∈ key, x < 256) :
    CryptoUtils.checkKeyParity (CryptoUtils.modifyKeyParity key) = false := by
  match key, hne with
  | b :: rest, _ =>
    have hb0 : b < 256 := hb b (List.mem_cons_self b rest)
    simp only [CryptoUtils.checkKeyParity, CryptoUtils.modifyKeyParity,
      List.map_cons, List.all_cons, Bool.and_eq_false_eq_eq_false_or_eq_false]
    left
    exact modified_byte_fails_check b hb0

theorem checkKeyParity_modifyKeyParity_false_witness :
    CryptoUtils.checkKeyParity (CryptoUtils.modifyKeyParity [1]) = false :=
  checkKeyParity_modifyKeyParity_false [1] (by decide) (by decide)

/-! ## PinUtils (src/utils/pin.ts) -/

namespace PinUtils

/-- The regex `^\d+$`: non-empty and all decimal digits. -/
def regexAllDigits (s : List Char) : Bool :=
  decide (s ≠ []) && s.all Char.isDigit

/-- JS `str.substring(a, b)` for the in-range uses in this code. -/
def substringChars (s : List Char) (a b : Nat) : List Char := (s.take b).drop a

/-- JS `str.padEnd(n, '0')`. -/
def padEndZero (s : List Char) (n : Nat) : List Char :=
  s ++ List.replicate (n - s.length) '0'

/-- Models `PinUtils.getClearPin` (pin.ts lines 30-49).
Renders the PIN block as uppercase hex, reads the first nibble as the PIN
length, validates the range [4,12], takes the next `length` nibbles and
requires them all decimal.  Both `throw` sites (and the degenerate empty
pin block, where JS `parseInt(undefined)` is NaN and the digit regex then
fails on the empty slice) are `.error`. -/
def getClearPin (pinblock accountNumber : Bytes) : Except Unit (List Char) :=
  let pinblockHex := bufferToHexUpper pinblock
  let _accountHex := bufferToHexUpper accountNumber
  match pinblockHex with
  | [] => .error ()
  | c0 :: _ =>
    let pinLength := hexVal c0
    if pinLength < 4 ∨ 12 < pinLength then .error ()
    else
      let pinDigits := substringChars pinblockHex 1 (pinLength + 1)
      if regexAllDigits pinDigits then .ok pinDigits else .error ()

/-- The digit-collection loop shared by the PVV and CVV derivations:
decimal digit characters of the hex rendering, in order, at most `k`. -/
def takeDecimalDigits (hx : List Char) (k : Nat) : List Char :=
  (hx.filter Char.isDigit).take k

/-- Models `PinUtils.getVisaPVV` (pin.ts lines 65-89). `pin` is the clear PIN
string (a character list here).  Returns the 4 ASCII bytes of the PVV. -/
def getVisaPVV (c : Cipher) (accountNumber pvki : Bytes) (pin : List Char)
    (pvkPair : Bytes) : Bytes :=
  let combined := bufferToHexLower accountNumber ++ bufferToHexLower pvki ++ pin
  let pvk := pvkPair.take 16
  let data := bufferFromHex ((padEndZero combined 16).take 16)
  let encrypted := c.enc pvk data
  let hx := bufferToHexLower encrypted
  let pvv := padEndZero (takeDecimalDigits hx 4) 4
  pvv.map Char.toNat

/-- Models `PinUtils.getVisaCVV` (pin.ts lines 105-127).  Returns the 3-character
CVV string. -/
def getVisaCVV (c : Cipher) (accountNumber expiryDate serviceCode cvk : Bytes) :
    List Char :=
  let combined := bufferToHexLower accountNumber ++ bufferToHexLower expiryDate ++
    bufferToHexLower serviceCode
  let data := bufferFromHex ((padEndZero combined 16).take 16)
  let encrypted := c.enc cvk data
  let hx := bufferToHexLower encrypted
  padEndZero (takeDecimalDigits hx 3) 3

end PinUtils

/-! ## Message objects (src/messages/base.ts) -/

/-- A parsed incoming request: the 2-letter command code plus the ordered
name→bytes field map built by the per-command parser. -/
structure Request where
  cmd : Bytes
  fields : List (String × Bytes)
deriving DecidableEq

/-- Ordered-map update with JS object semantics: an existing key keeps its
position, a new key is appended. -/
def setField : List (String × Bytes) → String → Bytes → List (String × Bytes)
  | [], k, v => [(k, v)]
  | (k0, v0) :: rest, k, v =>
    if k0 = k then (k, v) :: rest else (k0, v0) :: setField rest k v

/-- Ordered-map lookup (`this.fields[field]`). -/
def getField : List (String × Bytes) → String → Option Bytes
  | [], _ => none
  | (k0, v0) :: rest, k => if k0 = k then some v0 else getField rest k

def Request.get (r : Request) (k : String) : Option Bytes := getField r.fields k

/-- Models `OutgoingMessage`: response header plus the ordered field map.  The
source also mirrors the response code into `commandCode`, but `build`
reads only `fields`, so the mirror is not modelled. -/
structure OutgoingMessage where
  header : Bytes
  fields : List (String × Bytes)
deriving DecidableEq

namespace OutgoingMessage

def empty (header : Bytes) : OutgoingMessage := ⟨header, []⟩

/-- Models `setResponseCode`: stores the code under the field "Response Code". -/
def setResponseCode (r : OutgoingMessage) (code : String) : OutgoingMessage :=
  ⟨r.header, setField r.fields "Response Code" (ascii code)⟩

/-- Models `setErrorCode`: stores the code under the field "Error Code". -/
def setErrorCode (r : OutgoingMessage) (code : String) : OutgoingMessage :=
  ⟨r.header, setField r.fields "Error Code" (ascii code)⟩

def set (r : OutgoingMessage) (k : String) (v : Bytes) : OutgoingMessage :=
  ⟨r.header, setField r.fields k v⟩

def get (r : OutgoingMessage) (k : String) : Option Bytes := getField r.fields k

/-- Models `OutgoingMessage.build`: concatenate the field values in insertion
order, place the header in front, and add the big-endian u16 length of
header+body. -/
def build (r : OutgoingMessage) : Bytes :=
  let data := r.fields.foldl (fun acc kv => acc ++ kv.2) []
  u16be (r.header.length + data.length) ++ r.header ++ data

end OutgoingMessage

theorem getField_setField_same (fs : List (String × Bytes)) (k : String) (v : Bytes) :
    getField (setField fs k v) k = some v := by
  induction fs with
  | nil => simp [setField, getField]
  | cons kv rest ih =>
    by_cases h : kv.1 = k
    · simp [setField, getField, h]
    · simp [setField, getField, h, ih]

theorem getField_setField_other (fs : List (String × Bytes)) (k k2 : String)
    (v : Bytes) (hne : k ≠ k2) :
    getField (setField fs k v) k2 = getField fs k2 := by
  induction fs with
  | nil => simp [setField, getField, hne]
  | cons kv rest ih =>
    by_cases h : kv.1 = k
    · simp [setField, getField, h, hne]
    · simp only [setField, getField, if_neg h]
      by_cases h2 : kv.1 = k2
      · simp [h2]
      · simp [h2, ih]

/-! ## Frame codec (MessageUtils, src/utils/message.ts) -/

namespace MessageUtils

/-- Models `MessageUtils.parseMessage`: validate the u16 BE length, the expected
header bytes and the 2-byte command code; return (command, payload).
Every `throw` is `.error`.  The HSM always passes its configured header
buffer (possibly empty, which in JS is still truthy), so the header check
always runs. -/
def parseMessage (data : Bytes) (header : Bytes) : Except Unit (Bytes × Bytes) :=
  if data.length < 2 then .error ()
  else
    let length := readU16BE data
    if length ≠ data.length - 2 then .error ()
    else if data.length < 2 + header.length then .error ()
    else if sub data 2 (2 + header.length) ≠ header then .error ()
    else if data.length < header.length + 4 then .error ()
    else .ok (sub data (2 + header.length) (2 + header.length + 2),
              data.drop (2 + header.length + 2))

end MessageUtils

/-- Frame construction helper used in the statements (mirrors how the
repository's tests assemble request frames for the codec). -/
def mkFrame (header cmd payload : Bytes) : Bytes :=
  u16be (header.length + cmd.length + payload.length) ++ header ++ cmd ++ payload

/-! ## Per-command field parsers (src/messages/commands.ts)

Each `parseData` is a sequence of `subarray` slices whose offsets depend on
look-ahead sentinel bytes; only the CW and CY parsers can throw (missing
`;` delimiter). -/

/-- A0 (commands.ts lines 35-64). -/
def parseA0 (data : Bytes) : Request :=
  let base := [("Mode", sub data 0 1), ("Key Type", sub data 1 4),
               ("Key Scheme", sub data 4 5)]
  if sub data 0 1 = ascii "1" ∧ 5 < data.length then
    if peek data 5 = 0x3B then
      let fs := base ++ [("ZMK/TMK Flag", sub data 6 7)]
      if 7 < data.length ∧ peek data 7 = 0x55 then
        ⟨ascii "A0", fs ++ [("ZMK/TMK", sub data 7 40)]⟩
      else ⟨ascii "A0", fs⟩
    else
      if peek data 5 = 0x55 then ⟨ascii "A0", base ++ [("ZMK/TMK", sub data 5 38)]⟩
      else ⟨ascii "A0", base⟩
  else ⟨ascii "A0", base⟩

/-- BU (commands.ts lines 81-93): 2-byte key type code, 1-byte length
flag, then a `Key` field only when the next byte is `U` (0x55). -/
def parseBU (data : Bytes) : Request :=
  let base := [("Key Type Code", sub data 0 2), ("Key Length Flag", sub data 2 3)]
  if 3 < data.length ∧ peek data 3 = 0x55 then
    ⟨ascii "BU", base ++ [("Key", sub data 3 36)]⟩
  else ⟨ascii "BU", base⟩

/-- CA (commands.ts lines 110-143). -/
def parseCA (data : Bytes) : Request :=
  let hasTpk := peek data 0 = 0x55 ∨ peek data 0 = 0x54 ∨ peek data 0 = 0x53
  let o1 := if hasTpk then 33 else 0
  let f1 := if hasTpk then [("TPK", sub data 0 33)] else []
  let hasDk := peek data o1 = 0x55 ∨ peek data o1 = 0x54 ∨ peek data o1 = 0x53
  let o2 := if hasDk then o1 + 33 else o1
  let f2 := if hasDk then [("Destination Key", sub data o1 (o1 + 33))] else []
  ⟨ascii "CA", f1 ++ f2 ++
    [("Maximum PIN Length", sub data o2 (o2 + 2)),
     ("Source PIN block", sub data (o2 + 2) (o2 + 18)),
     ("Source PIN block format", sub data (o2 + 18) (o2 + 20)),
     ("Destination PIN block format", sub data (o2 + 20) (o2 + 22)),
     ("Account Number", sub data (o2 + 22) (o2 + 34))]⟩

/-- CW (commands.ts lines 160-184): throws when the `;` delimiter bounding
the PAN is absent. -/
def parseCW (data : Bytes) : Except Unit Request :=
  let hasCvk := peek data 0 = 0x55 ∨ peek data 0 = 0x54 ∨ peek data 0 = 0x53
  let o := if hasCvk then 33 else 0
  let f1 := if hasCvk then [("CVK", sub data 0 33)] else []
  match jsIndexOf data 0x3B o with
  | none => .error ()
  | some di =>
    .ok ⟨ascii "CW", f1 ++
      [("Primary Account Number", sub data o di),
       ("Expiration Date", sub data (di + 1) (di + 5)),
       ("Service Code", sub data (di + 5) (di + 8))]⟩

/-- CY (commands.ts lines 201-229): CVK envelope, 3-byte CVV, then PAN up
to the `;` delimiter (throws when absent), expiry and service code. -/
def parseCY (data : Bytes) : Except Unit Request :=
  let hasCvk := peek data 0 = 0x55 ∨ peek data 0 = 0x54 ∨ peek data 0 = 0x53
  let o := if hasCvk then 33 else 0
  let f1 := if hasCvk then [("CVK", sub data 0 33)] else []
  match jsIndexOf data 0x3B (o + 3) with
  | none => .error ()
  | some di =>
    .ok ⟨ascii "CY", f1 ++
      [("CVV", sub data o (o + 3)),
       ("Primary Account Number", sub data (o + 3) di),
       ("Expiration Date", sub data (di + 1) (di + 5)),
       ("Service Code", sub data (di + 5) (di + 8))]⟩

/-- DC (commands.ts lines 246-278): optional TPK envelope (U/T/S
sentinel), PVK pair of 33 bytes when U-prefixed else 32, then the fixed
PIN-verification fields. -/
def parseDC (data : Bytes) : Request :=
  let hasTpk := peek data 0 = 0x55 ∨ peek data 0 = 0x54 ∨ peek data 0 = 0x53
  let o1 := if hasTpk then 33 else 0
  let f1 := if hasTpk then [("TPK", sub data 0 33)] else []
  let pvkLen := if peek data o1 = 0x55 then 33 else 32
  let o2 := o1 + pvkLen
  ⟨ascii "DC", f1 ++
    [("PVK Pair", sub data o1 o2),
     ("PIN block", sub data o2 (o2 + 16)),
     ("PIN block format code", sub data (o2 + 16) (o2 + 18)),
     ("Account Number", sub data (o2 + 18) (o2 + 30)),
     ("PVKI", sub data (o2 + 30) (o2 + 31)),
     ("PVV", sub data (o2 + 31) (o2 + 35))]⟩

/-- EC (commands.ts lines 295-333): like DC with a ZPK (U sentinel only)
and a Token instead of the Account when the format code is "04". -/
def parseEC (data : Bytes) : Request :=
  let hasZpk := peek data 0 = 0x55
  let o1 := if hasZpk then 33 else 0
  let f1 := if hasZpk then [("ZPK", sub data 0 33)] else []
  let pvkLen := if peek data o1 = 0x55 then 33 else 32
  let o2 := o1 + pvkLen
  let fmt := sub data (o2 + 16) (o2 + 18)
  let base := f1 ++ [("PVK Pair", sub data o1 o2), ("PIN block", sub data o2 (o2 + 16)),
    ("PIN block format code", fmt)]
  if fmt ≠ ascii "04" then
    ⟨ascii "EC", base ++ [("Account Number", sub data (o2 + 18) (o2 + 30)),
      ("PVKI", sub data (o2 + 30) (o2 + 31)), ("PVV", sub data (o2 + 31) (o2 + 35))]⟩
  else
    ⟨ascii "EC", base ++ [("Token", sub data (o2 + 18) (o2 + 36)),
      ("PVKI", sub data (o2 + 36) (o2 + 37)), ("PVV", sub data (o2 + 37) (o2 + 41))]⟩

/-- FA (commands.ts lines 350-363). -/
def parseFA (data : Bytes) : Request :=
  let hasZmk := peek data 0 = 0x55 ∨ peek data 0 = 0x54
  let o1 := if hasZmk then 33 else 0
  let f1 := if hasZmk then [("ZMK", sub data 0 33)] else []
  let hasZpk := peek data o1 = 0x55 ∨ peek data o1 = 0x54 ∨ peek data o1 = 0x58
  let f2 := if hasZpk then [("ZPK", sub data o1 (o1 + 33))] else []
  ⟨ascii "FA", f1 ++ f2⟩

/-- HC (commands.ts lines 380-397). -/
def parseHC (data : Bytes) : Request :=
  let keyLen := if peek data 0 = 0x55 then 33 else 16
  ⟨ascii "HC", [("Current Key", sub data 0 keyLen),
    ("Key Scheme (TMK)", sub data (keyLen + 1) (keyLen + 2)),
    ("Key Scheme (LMK)", sub data (keyLen + 2) (keyLen + 3))]⟩

/-- NC has no payload fields. -/
def parseNC (_data : Bytes) : Request := ⟨ascii "NC", []⟩

/-- GC (commands.ts lines 428-468): each slice is guarded by a length
check and the offset advances only when the slice is taken. -/
def parseGC (data : Bytes) : Request :=
  let n := data.length
  let f1 := if 2 ≤ n then [("LMK-Id", sub data 0 2)] else []
  let o1 := if 2 ≤ n then 2 else 0
  let f2 := if o1 + 1 ≤ n then f1 ++ [("Key Length Flag", sub data o1 (o1 + 1))] else f1
  let o2 := if o1 + 1 ≤ n then o1 + 1 else o1
  let f3 := if o2 + 3 ≤ n then f2 ++ [("Key Type", sub data o2 (o2 + 3))] else f2
  let o3 := if o2 + 3 ≤ n then o2 + 3 else o2
  let f4 := if o3 + 1 ≤ n then f3 ++ [("Key Scheme", sub data o3 (o3 + 1))] else f3
  let o4 := if o3 + 1 ≤ n then o3 + 1 else o3
  let isAes := o4 < n ∧ (peek data o4 = 0x33 ∨ peek data o4 = 0x41)
  let f5 := if isAes then f4 ++ [("AES Algorithm", sub data o4 (o4 + 1))] else f4
  let o5 := if isAes then o4 + 1 else o4
  let f6 := if o5 < n then f5 ++ [("Optional Blocks", data.drop o5)] else f5
  ⟨ascii "GC", f6⟩

/-- GS (commands.ts lines 483-505). -/
def parseGS (data : Bytes) : Request :=
  let base := [("LMK-Id", sub data 0 2), ("Key Length Flag", sub data 2 3),
    ("Key Type", sub data 3 6), ("Key Scheme", sub data 6 7),
    ("Number of Components", sub data 7 8)]
  if 8 < data.length then ⟨ascii "GS", base ++ [("Smart Card PINs", data.drop 8)]⟩
  else ⟨ascii "GS", base⟩

/-- FK (commands.ts lines 520-545). -/
def parseFK (data : Bytes) : Request :=
  let base := [("LMK-Id", sub data 0 2), ("Algorithm", sub data 2 3),
    ("Key Length", sub data 3 4), ("Key Scheme", sub data 4 5),
    ("Component Type", sub data 5 6), ("Number of Components", sub data 6 7)]
  if 7 < data.length then ⟨ascii "FK", base ++ [("Optional Blocks", data.drop 7)]⟩
  else ⟨ascii "FK", base⟩

/-- KG (commands.ts lines 560-579). -/
def parseKG (data : Bytes) : Request :=
  let base := [("LMK-Id", sub data 0 2), ("Algorithm", sub data 2 3),
    ("Key Length", sub data 3 4), ("Key Scheme", sub data 4 5)]
  if 5 < data.length then ⟨ascii "KG", base ++ [("Export Parameters", data.drop 5)]⟩
  else ⟨ascii "KG", base⟩

/-- IK (commands.ts lines 594-608). -/
def parseIK (data : Bytes) : Request :=
  let base := [("LMK-Id", sub data 0 2), ("Key Scheme (LMK)", sub data 2 3)]
  if 3 < data.length then ⟨ascii "IK", base ++ [("Encrypted Key", data.drop 3)]⟩
  else ⟨ascii "IK", base⟩

/-- KE (commands.ts lines 624-650). -/
def parseKE (data : Bytes) : Request :=
  let n := data.length
  let base := [("LMK-Id", sub data 0 2), ("Key Scheme (ZMK/KB)", sub data 2 3)]
  let remaining := min 33 (n - 3)
  let f1 := if 3 < n then base ++ [("ZMK/Key Block", sub data 3 (3 + remaining))] else base
  let o1 := if 3 < n then 3 + remaining else 3
  let f2 := if o1 < n then f1 ++ [("Exportability", sub data o1 (o1 + 1))] else f1
  let o2 := if o1 < n then o1 + 1 else o1
  if o2 < n then ⟨ascii "KE", f2 ++ [("TR-31 Blocks", data.drop o2)]⟩
  else ⟨ascii "KE", f2⟩

/-- CK (commands.ts lines 665-681). -/
def parseCK (data : Bytes) : Request :=
  let base := [("LMK-Id", sub data 0 2), ("Key Type", sub data 2 5),
    ("Key Length Flag", sub data 5 6)]
  if 6 < data.length then ⟨ascii "CK", base ++ [("Encrypted Key", data.drop 6)]⟩
  else ⟨ascii "CK", base⟩

/-- A6 (commands.ts lines 696-701). -/
def parseA6 (data : Bytes) : Request :=
  if 8 ≤ data.length then ⟨ascii "A6", [("Counter", sub data 0 8)]⟩
  else ⟨ascii "A6", []⟩

/-- EA (commands.ts lines 716-740). -/
def parseEA (data : Bytes) : Request :=
  let n := data.length
  let zmkLength := if 48 ≤ n then 48 else 32
  let f1 := [("ZMK under LMK", sub data 0 zmkLength)]
  let f2 := if zmkLength + 6 ≤ n then f1 ++ [("KCV", sub data zmkLength (zmkLength + 6))] else f1
  let o2 := if zmkLength + 6 ≤ n then zmkLength + 6 else zmkLength
  let f3 := if o2 < n then f2 ++ [("KEK Type", sub data o2 (o2 + 1))] else f2
  let o3 := if o2 < n then o2 + 1 else o2
  if o3 < n then ⟨ascii "EA", f3 ++ [("Key Scheme", sub data o3 (o3 + 1))]⟩
  else ⟨ascii "EA", f3⟩

/-- CV (commands.ts lines 759-784).  `data.length - 7` is clamped at 0
here; with payloads shorter than 7 bytes JS would index from the end, but
no claim (and no handler branch a claim touches) reads those fields. -/
def parseCV (data : Bytes) : Request :=
  let expiryStart := data.length - 7
  ⟨ascii "CV", [("LMK-Id", sub data 0 2), ("CVK-A", sub data 2 34),
    ("PAN", sub data 34 expiryStart),
    ("Expiry Date", sub data expiryStart (expiryStart + 4)),
    ("Service Code", sub data (expiryStart + 4) (expiryStart + 7))]⟩

/-- PV (commands.ts lines 799-821); `findOffsetStart` is `length - 12`. -/
def parsePV (data : Bytes) : Request :=
  let panEnd := data.length - 12
  ⟨ascii "PV", [("LMK-Id", sub data 0 2), ("CVK", sub data 2 34),
    ("PAN", sub data 34 panEnd), ("Offset", sub data panEnd (panEnd + 12))]⟩

/-- ED (commands.ts lines 835-840). -/
def parseED (data : Bytes) : Request :=
  if 16 ≤ data.length then ⟨ascii "ED", [("Decimalisation String", sub data 0 16)]⟩
  else ⟨ascii "ED", []⟩

/-- TD (commands.ts lines 855-870). -/
def parseTD (data : Bytes) : Request :=
  let base := [("Encrypted Table", sub data 0 16), ("From LMK-Id", sub data 16 18)]
  if 20 ≤ data.length then ⟨ascii "TD", base ++ [("To LMK-Id", sub data 18 20)]⟩
  else ⟨ascii "TD", base⟩

/-- MI (commands.ts lines 885-898). -/
def parseMI (data : Bytes) : Request :=
  if 32 < data.length then
    let ipbLength := data.length - 32
    ⟨ascii "MI", [("IPB", sub data 0 ipbLength), ("MAC Key", data.drop ipbLength)]⟩
  else ⟨ascii "MI", [("IPB", data)]⟩

/-- GK (commands.ts lines 917-939). -/
def parseGK (data : Bytes) : Request :=
  let n := data.length
  let f1 := if 0 < n then [("Variant/KB", sub data 0 1)] else []
  let o1 := if 0 < n then 1 else 0
  let f2 := if o1 < n then f1 ++ [("Algorithm", sub data o1 (o1 + 1))] else f1
  let o2 := if o1 < n then o1 + 1 else o1
  let f3 := if o2 < n then f2 ++ [("Status", sub data o2 (o2 + 1))] else f2
  let o3 := if o2 < n then o2 + 1 else o2
  if o3 < n then ⟨ascii "GK", f3 ++ [("Components", data.drop o3)]⟩
  else ⟨ascii "GK", f3⟩

/-- LK (commands.ts lines 954-964). -/
def parseLK (data : Bytes) : Request :=
  let base := [("LMK-Id", sub data 0 2)]
  if 2 < data.length then ⟨ascii "LK", base ++ [("Comment", data.drop 2)]⟩
  else ⟨ascii "LK", base⟩

/-- LO (commands.ts lines 979-988). -/
def parseLO (data : Bytes) : Request :=
  let base := [("LMK-Id", sub data 0 2)]
  if 2 < data.length then ⟨ascii "LO", base ++ [("Comment", data.drop 2)]⟩
  else ⟨ascii "LO", base⟩

/-- LN (commands.ts lines 1003-1012). -/
def parseLN (data : Bytes) : Request :=
  let base := [("LMK-Id", sub data 0 2)]
  if 2 < data.length then ⟨ascii "LN", base ++ [("Comment", data.drop 2)]⟩
  else ⟨ascii "LN", base⟩

/-- VT has no payload fields. -/
def parseVT (_data : Bytes) : Request := ⟨ascii "VT", []⟩

/-- DM (commands.ts lines 1040-1044). -/
def parseDM (data : Bytes) : Request :=
  if 2 ≤ data.length then ⟨ascii "DM", [("LMK-Id", sub data 0 2)]⟩
  else ⟨ascii "DM", []⟩

/-- DO (commands.ts lines 1059-1070). -/
def parseDO (data : Bytes) : Request :=
  let n := data.length
  let f1 := if 0 < n then [("Old/New Flag", sub data 0 1)] else []
  let o1 := if 0 < n then 1 else 0
  if o1 + 2 ≤ n then ⟨ascii "DO", f1 ++ [("LMK-Id", sub data o1 (o1 + 2))]⟩
  else ⟨ascii "DO", f1⟩

/-- GT (commands.ts lines 1085-1093). -/
def parseGT (data : Bytes) : Request :=
  let f1 := if 0 < data.length then [("LMK Type", sub data 0 1)] else []
  if 1 < data.length then ⟨ascii "GT", f1 ++ [("Smart Card PINs", data.drop 1)]⟩
  else ⟨ascii "GT", f1⟩

/-- V has no payload fields (and as a 1-letter code can never match the
2-byte command slice, mirroring the dead `case 'V'` in the source). -/
def parseV (_data : Bytes) : Request := ⟨ascii "V", []⟩

/-- KM (commands.ts lines 1125-1133). -/
def parseKM (data : Bytes) : Request :=
  let f1 := if 0 < data.length then [("Number of Components", sub data 0 1)] else []
  if 1 < data.length then ⟨ascii "KM", f1 ++ [("Smart Card PINs", data.drop 1)]⟩
  else ⟨ascii "KM", f1⟩

/-- KN (commands.ts lines 1148-1157). -/
def parseKN (data : Bytes) : Request :=
  if 6 ≤ data.length then
    let ktkKcvStart := data.length - 6
    ⟨ascii "KN", [("Card PINs", sub data 0 ktkKcvStart),
      ("Existing KTK KCV", data.drop ktkKcvStart)]⟩
  else ⟨ascii "KN", [("Card PINs", data)]⟩

/-- KT has no payload fields. -/
def parseKT (_data : Bytes) : Request := ⟨ascii "KT", []⟩

/-- KK (commands.ts lines 1185-1203); the key length `data.length - 9` is
clamped at 0 (JS would go negative and slice from the end, but the KK
fields are never consulted and neither version throws). -/
def parseKK (data : Bytes) : Request :=
  let keyLength := data.length - 9
  let base := [("LMK-Id", sub data 0 2), ("Key Scheme", sub data 2 3),
    ("Import Key", sub data 3 (3 + keyLength))]
  if 3 + keyLength + 6 ≤ data.length then
    ⟨ascii "KK", base ++ [("KCV", sub data (3 + keyLength) (3 + keyLength + 6))]⟩
  else ⟨ascii "KK", base⟩

/-- KD (commands.ts lines 1218-1222). -/
def parseKD (data : Bytes) : Request :=
  if 2 ≤ data.length then ⟨ascii "KD", [("KTK-Id", sub data 0 2)]⟩
  else ⟨ascii "KD", []⟩

def exOpt : Except Unit Request → Option Request
  | .ok r => some r
  | .error _ => none

/-- The command dispatch of `HSM.parseMessage` (hsm.ts lines 384-436):
construct the per-command message; an unrecognised code is `none` (the
source returns `null`, which the session loop answers by closing the
socket), and a throwing constructor is caught to `none` as well. -/
def parseCommand (cmd data : Bytes) : Option Request :=
  if cmd = ascii "A0" then some (parseA0 data)
  else if cmd = ascii "BU" then some (parseBU data)
  else if cmd = ascii "CA" then some (parseCA data)
  else if cmd = ascii "CW" then exOpt (parseCW data)
  else if cmd = ascii "CY" then exOpt (parseCY data)
  else if cmd = ascii "DC" then some (parseDC data)
  else if cmd = ascii "EC" then some (parseEC data)
  else if cmd = ascii "FA" then some (parseFA data)
  else if cmd = ascii "HC" then some (parseHC data)
  else if cmd = ascii "NC" then some (parseNC data)
  else if cmd = ascii "GC" then some (parseGC data)
  else if cmd = ascii "GS" then some (parseGS data)
  else if cmd = ascii "FK" then some (parseFK data)
  else if cmd = ascii "KG" then some (parseKG data)
  else if cmd = ascii "IK" then some (parseIK data)
  else if cmd = ascii "KE" then some (parseKE data)
  else if cmd = ascii "CK" then some (parseCK data)
  else if cmd = ascii "A6" then some (parseA6 data)
  else if cmd = ascii "EA" then some (parseEA data)
  else if cmd = ascii "CV" then some (parseCV data)
  else if cmd = ascii "PV" then some (parsePV data)
  else if cmd = ascii "ED" then some (parseED data)
  else if cmd = ascii "TD" then some (parseTD data)
  else if cmd = ascii "MI" then some (parseMI data)
  else if cmd = ascii "GK" then some (parseGK data)
  else if cmd = ascii "LK" then some (parseLK data)
  else if cmd = ascii "LO" then some (parseLO data)
  else if cmd = ascii "LN" then some (parseLN data)
  else if cmd = ascii "VT" then some (parseVT data)
  else if cmd = ascii "DM" then some (parseDM data)
  else if cmd = ascii "DO" then some (parseDO data)
  else if cmd = ascii "GT" then some (parseGT data)
  else if cmd = ascii "V" then some (parseV data)
  else if cmd = ascii "KM" then some (parseKM data)
  else if cmd = ascii "KN" then some (parseKN data)
  else if cmd = ascii "KT" then some (parseKT data)
  else if cmd = ascii "KK" then some (parseKK data)
  else if cmd = ascii "KD" then some (parseKD data)
  else none

/-! ## HSM handlers and session loop (src/hsm.ts) -/

/-- The immutable per-process configuration relevant to the core. -/
structure Config where
  header : Bytes
  lmk : Bytes
  skipParity : Bool
  approveAll : Bool

namespace HSM

/-- Models `HSM.checkKeyParity` (hsm.ts lines 115-129): skip entirely when
configured; otherwise strip a leading `U`, round-trip the bytes through
hex, decrypt under the LMK and check odd parity of the clear key. -/
def checkKeyParity (c : Cipher) (cfg : Config) (key : Bytes) : Bool :=
  if cfg.skipParity then true
  else
    let keyData := if peek key 0 = 0x55 then key.drop 1 else key
    let clearKey := c.dec cfg.lmk (hexRT keyData)
    CryptoUtils.checkKeyParity clearKey

/-- Models `HSM.decryptPinblock` (hsm.ts lines 137-148). -/
def decryptPinblock (c : Cipher) (cfg : Config)
    (encryptedPinblock encryptedTerminalKey : Bytes) : Bytes :=
  let keyData := if peek encryptedTerminalKey 0 = 0x55 then
    encryptedTerminalKey.drop 1 else encryptedTerminalKey
  let clearTerminalKey := c.dec cfg.lmk (hexRT keyData)
  let decryptedPinblock := c.dec clearTerminalKey (hexRT encryptedPinblock)
  hexRT decryptedPinblock

/-- The `try` block of `HSM.verifyPin` (hsm.ts lines 188-213): decrypt the
PIN block, extract the clear PIN, compute the expected PVV and compare.
`.ok` carries the error-code string chosen inside the block; `.error`
models any exception reaching the `catch` (including a dereference of an
absent field). -/
def verifyPinTry (c : Cipher) (cfg : Config) (req : Request) (key : Bytes)
    (pvkPair : Bytes) : Except Unit String :=
  match req.get "PIN block" with
  | none => .error ()
  | some pinBlock =>
    let decrypted := decryptPinblock c cfg pinBlock key
    match req.get "Account Number" with
    | none => .error ()
    | some accountNumber =>
      match PinUtils.getClearPin decrypted accountNumber with
      | .error _ => .error ()
      | .ok pin =>
        match req.get "PVKI", req.get "PVV" with
        | some pvki, some expectedPvv =>
          let calculatedPvv := PinUtils.getVisaPVV c accountNumber pvki (pin.take 4) pvkPair
          if calculatedPvv = expectedPvv then .ok "00"
          else .ok (if cfg.approveAll then "00" else "01")
        | _, _ => .error ()

/-- Models `HSM.verifyPin` (hsm.ts lines 155-220), shared by DC and EC: response
code DD/ED is set first; missing key or parity failure yields 10, PVK
absence/parity failure 11, PVK length ≠ 32 yields 27, PVV mismatch or an
exception 01 — each overridden to 00 under approve-all. -/
def verifyPin (c : Cipher) (cfg : Config) (req : Request) : OutgoingMessage :=
  let isDC := req.cmd = ascii "DC"
  let r0 := (OutgoingMessage.empty cfg.header).setResponseCode (if isDC then "DD" else "ED")
  match req.get (if isDC then "TPK" else "ZPK") with
  | none => r0.setErrorCode (if cfg.approveAll then "00" else "10")
  | some key =>
    if checkKeyParity c cfg key = false then
      r0.setErrorCode (if cfg.approveAll then "00" else "10")
    else
      match req.get "PVK Pair" with
      | none => r0.setErrorCode (if cfg.approveAll then "00" else "11")
      | some pvkPair =>
        if checkKeyParity c cfg pvkPair = false then
          r0.setErrorCode (if cfg.approveAll then "00" else "11")
        else if pvkPair.length ≠ 32 then
          r0.setErrorCode (if cfg.approveAll then "00" else "27")
        else
          match verifyPinTry c cfg req key pvkPair with
          | .ok err => r0.setErrorCode err
          | .error _ => r0.setErrorCode (if cfg.approveAll then "00" else "01")

/-- Models `HSM.verifyCvv` (hsm.ts lines 227-262): response code CZ first; a CVK
parity failure yields 10 with NO approve-all override; a CVV mismatch
yields 01 overridden to 00 under approve-all.  A missing CVK (or missing
derivation input) is dereferenced and throws: `.error`. -/
def verifyCvv (c : Cipher) (cfg : Config) (req : Request) :
    Except Unit OutgoingMessage :=
  let r0 := (OutgoingMessage.empty cfg.header).setResponseCode "CZ"
  match req.get "CVK" with
  | none => .error ()
  | some cvk =>
    if checkKeyParity c cfg cvk = false then .ok (r0.setErrorCode "10")
    else
      let cvkData := if peek cvk 0 = 0x55 then cvk.drop 1 else cvk
      let clearCvk := c.dec cfg.lmk (hexRT cvkData)
      match req.get "Primary Account Number", req.get "Expiration Date",
        req.get "Service Code", req.get "CVV" with
      | some pan, some expiry, some svc, some cvv =>
        let calculatedCvv := PinUtils.getVisaCVV c pan expiry svc clearCvk
        if calculatedCvv = decodeAscii cvv then .ok (r0.setErrorCode "00")
        else .ok (r0.setErrorCode (if cfg.approveAll then "00" else "01"))
      | _, _, _, _ => .error ()

/-- Models `HSM.generateCvv` (hsm.ts lines 269-296): CW response; here the CVK
parity failure IS overridden under approve-all. -/
def generateCvv (c : Cipher) (cfg : Config) (req : Request) :
    Except Unit OutgoingMessage :=
  let r0 := (OutgoingMessage.empty cfg.header).setResponseCode "CX"
  match req.get "CVK" with
  | none => .error ()
  | some cvk =>
    if checkKeyParity c cfg cvk = false then
      .ok (r0.setErrorCode (if cfg.approveAll then "00" else "10"))
    else
      let cvkData := if peek cvk 0 = 0x55 then cvk.drop 1 else cvk
      let clearCvk := c.dec cfg.lmk (hexRT cvkData)
      match req.get "Primary Account Number", req.get "Expiration Date",
        req.get "Service Code" with
      | some pan, some expiry, some svc =>
        let cvv := PinUtils.getVisaCVV c pan expiry svc clearCvk
        .ok (((r0.setErrorCode "00").set "CVV" (cvv.map Char.toNat)))
      | _, _, _ => .error ()

/-- Models `HSM.getDiagnosticsData` (hsm.ts lines 302-316): ND / 00 with the
16-byte-truncated LMK check value and the firmware constant. -/
def getDiagnosticsData (c : Cipher) (cfg : Config) : OutgoingMessage :=
  ((((OutgoingMessage.empty cfg.header).setResponseCode "ND").setErrorCode "00").set
    "LMK Check Value" (CryptoUtils.getKeyCheckValue c cfg.lmk 16)).set
    "Firmware Version" (ascii "0007-E000")

/-- Models `HSM.getKeyCheckValue`, the BU handler (hsm.ts lines 323-337): BV / 00
set first; the absent `Key` field is dereferenced (throws, `.error`);
otherwise strip a leading `U`, round-trip through hex and emit the KCV of
the resulting bytes at length 16. -/
def getKeyCheckValue (c : Cipher) (cfg : Config) (req : Request) :
    Except Unit OutgoingMessage :=
  let r0 := ((OutgoingMessage.empty cfg.header).setResponseCode "BV").setErrorCode "00"
  match req.get "Key" with
  | none => .error ()
  | some key =>
    let keyData := if peek key 0 = 0x55 then key.drop 1 else key
    let checkValue := CryptoUtils.getKeyCheckValue c (hexRT keyData) 16
    .ok (r0.set "Key Check Value" checkValue)

/-- Models `HSM.generateKeyA0` (hsm.ts lines 344-370); the random draw of
`generateRandomKey` enters as the `rand` parameter, to which the
parity-modification of crypto.ts line 25 is applied. -/
def generateKeyA0 (c : Cipher) (cfg : Config) (rand : Bytes) (req : Request) :
    OutgoingMessage :=
  let newClearKey := CryptoUtils.modifyKeyParity rand
  let r0 := ((OutgoingMessage.empty cfg.header).setResponseCode "A1").setErrorCode "00"
  let r1 := r0.set "Key under LMK" (0x55 :: hexRT (c.enc cfg.lmk newClearKey))
  match req.get "ZMK/TMK" with
  | none => r1
  | some zmkTmk =>
    let zmkData := sub zmkTmk 1 33
    let clearZmk := c.dec cfg.lmk (hexRT zmkData)
    ((r1.set "Key under ZMK" (0x55 :: hexRT (c.enc clearZmk newClearKey))).set
      "Key Check Value" (CryptoUtils.getKeyCheckValue c newClearKey 6))

/-- Models `HSM.generateKeyComponent`, the GC handler (hsm.ts lines 482-501). -/
def generateKeyComponent (c : Cipher) (cfg : Config) (rand : Bytes)
    (_req : Request) : OutgoingMessage :=
  let component := CryptoUtils.modifyKeyParity rand
  let encryptedComponent := c.enc cfg.lmk component
  ((((((OutgoingMessage.empty cfg.header).setResponseCode "GD").setErrorCode
    "00").set "Clear Component" component).set "Encrypted Component"
    encryptedComponent).set "Component KCV"
    (CryptoUtils.getKeyCheckValue c component 6))

/-- Models `HSM.setKMCSequenceNumber`, the A6 handler (hsm.ts lines 508-521). -/
def setKMCSequenceNumber (cfg : Config) (_req : Request) : OutgoingMessage :=
  ((OutgoingMessage.empty cfg.header).setResponseCode "A7").setErrorCode "00"

/-- Models `HSM.generateCheckValue`, the CK handler (hsm.ts lines 528-543); note
the encrypted key is used directly, with no hex round trip. -/
def generateCheckValue (c : Cipher) (cfg : Config) (req : Request) :
    OutgoingMessage :=
  let r0 := ((OutgoingMessage.empty cfg.header).setResponseCode "CL").setErrorCode "00"
  match req.get "Encrypted Key" with
  | none => r0
  | some encryptedKey =>
    r0.set "Key Check Value" (CryptoUtils.getKeyCheckValue c encryptedKey 6)

/-- Models `HSM.generateCardVerificationValue`, the CV handler (hsm.ts lines
550-573). -/
def generateCardVerificationValue (c : Cipher) (cfg : Config) (req : Request) :
    OutgoingMessage :=
  let r0 := ((OutgoingMessage.empty cfg.header).setResponseCode "DW").setErrorCode "00"
  match req.get "CVK-A", req.get "PAN", req.get "Expiry Date",
    req.get "Service Code" with
  | some cvkA, some pan, some expiryDate, some serviceCode =>
    let cvkData := if peek cvkA 0 = 0x55 then cvkA.drop 1 else cvkA
    let clearCvk := c.dec cfg.lmk (hexRT cvkData)
    let cvv := PinUtils.getVisaCVV c pan expiryDate serviceCode clearCvk
    r0.set "CVV" (cvv.map Char.toNat)
  | _, _, _, _ => r0

/-- Models `HSM.generateVisaPVV`, the PV handler (hsm.ts lines 580-609). -/
def generateVisaPVV (c : Cipher) (cfg : Config) (req : Request) :
    OutgoingMessage :=
  let r0 := ((OutgoingMessage.empty cfg.header).setResponseCode "QW").setErrorCode "00"
  match req.get "CVK", req.get "PAN", req.get "Offset" with
  | some cvk, some pan, some off =>
    let pin := (bufferToHexLower off).take 4
    let pvki := ascii "1"
    let cvkData := if peek cvk 0 = 0x55 then cvk.drop 1 else cvk
    let clearCvk := c.dec cfg.lmk (hexRT cvkData)
    let pvkPair := clearCvk ++ clearCvk
    r0.set "PVV" (PinUtils.getVisaPVV c pan pvki pin pvkPair)
  | _, _, _ => r0

/-- Models `HSM.viewLMKTable`, the VT handler (hsm.ts lines 616-628). -/
def viewLMKTable (c : Cipher) (cfg : Config) (_req : Request) : OutgoingMessage :=
  let lmkTable := ascii "00 L U " ++
    ((bufferToHexLower (CryptoUtils.getKeyCheckValue c cfg.lmk 6)).map Char.toNat) ++
    ascii " Current LMK"
  (((OutgoingMessage.empty cfg.header).setResponseCode "WU").setErrorCode "00").set
    "LMK Table" lmkTable

/-- Models `HSM.getResponse` (hsm.ts lines 448-475): dispatch on the command code
with the handlers above; every other recognised command falls to the
default branch, which replies ZZ / 00.  `.error` marks an exception
escaping a handler (there is no try/catch on this path). -/
def getResponse (c : Cipher) (cfg : Config) (rand : Bytes) (req : Request) :
    Except Unit OutgoingMessage :=
  if req.cmd = ascii "A0" then .ok (generateKeyA0 c cfg rand req)
  else if req.cmd = ascii "A6" then .ok (setKMCSequenceNumber cfg req)
  else if req.cmd = ascii "BU" then getKeyCheckValue c cfg req
  else if req.cmd = ascii "CK" then .ok (generateCheckValue c cfg req)
  else if req.cmd = ascii "CV" then .ok (generateCardVerificationValue c cfg req)
  else if req.cmd = ascii "CW" then generateCvv c cfg req
  else if req.cmd = ascii "CY" then verifyCvv c cfg req
  else if req.cmd = ascii "DC" then .ok (verifyPin c cfg req)
  else if req.cmd = ascii "EC" then .ok (verifyPin c cfg req)
  else if req.cmd = ascii "GC" then .ok (generateKeyComponent c cfg rand req)
  else if req.cmd = ascii "NC" then .ok (getDiagnosticsData c cfg)
  else if req.cmd = ascii "PV" then .ok (generateVisaPVV c cfg req)
  else if req.cmd = ascii "VT" then .ok (viewLMKTable c cfg req)
  else .ok (((OutgoingMessage.empty cfg.header).setResponseCode "ZZ").setErrorCode "00")

/-- Models `HSM.parseMessage` (hsm.ts lines 377-441): frame parse plus command
construction, with every exception caught to `none` and unrecognised
commands `none`. -/
def parse (cfg : Config) (data : Bytes) : Option Request :=
  match MessageUtils.parseMessage data cfg.header with
  | .error _ => none
  | .ok (cmd, commandData) => parseCommand cmd commandData

end HSM

/-- Outcome of the per-frame session step in `HSM.handleClient` (hsm.ts
lines 640-672): a written response frame, a `socket.end()` with no
response (parse failure), or an exception escaping the handler (no
response is written and no `socket.end()` runs). -/
inductive SessionOutcome
  | reply (bytes : Bytes)
  | closed
  | crash
deriving DecidableEq

/-- One `data` event of `HSM.handleClient`: parse, dispatch, build, write. -/
def handleOne (c : Cipher) (cfg : Config) (rand : Bytes) (data : Bytes) :
    SessionOutcome :=
  match HSM.parse cfg data with
  | none => .closed
  | some req =>
    match HSM.getResponse c cfg rand req with
    | .error _ => .crash
    | .ok resp => .reply resp.build

/-! ## Infrastructure for the session-level theorems -/

/-- Identity mock cipher used to instantiate witnesses and counterexamples
(the cipher is an external primitive the core only plumbs through). -/
def idCipher : Cipher := ⟨fun _ d => d, fun _ d => d⟩

/-- Mock cipher whose ciphertext records the key length; it separates the
key the handler actually uses from the key a claim says it uses. -/
def lenCipher : Cipher := ⟨fun k _ => [k.length], fun _ d => d⟩

/-- Default configuration: empty header, parity checked, nothing approved. -/
def cfg0 : Config := ⟨[], [], false, false⟩

theorem sub_append (l1 l2 : Bytes) (k : Nat) :
    sub (l1 ++ l2) l1.length (l1.length + k) = l2.take k := by
  simp only [sub, List.take_append_eq_append_take]
  rw [List.take_of_length_le (by omega), Nat.add_sub_cancel_left]
  exact List.drop_left l1 (l2.take k)

theorem parseMessage_mkFrame (header cmd payload : Bytes)
    (hcmd : cmd.length = 2)
    (hlen : header.length + 2 + payload.length < 65536) :
    MessageUtils.parseMessage (mkFrame header cmd payload) header =
      .ok (cmd, payload) := by
  have hassoc : mkFrame header cmd payload =
      u16be (header.length + cmd.length + payload.length) ++
        (header ++ (cmd ++ payload)) := by
    simp [mkFrame]
  have hdlen : (mkFrame header cmd payload).length =
      2 + (header.length + 2 + payload.length) := by
    simp [mkFrame, u16be, hcmd]; omega
  have hread : readU16BE (mkFrame header cmd payload) =
      header.length + 2 + payload.length := by
    simp only [mkFrame, u16be, hcmd, List.cons_append, List.nil_append]
    simp only [readU16BE, List.getD_cons_zero, List.getD_cons_succ]
    omega
  unfold MessageUtils.parseMessage
  rw [if_neg (by omega)]
  rw [hread, hdlen, if_neg (by omega)]
  rw [if_neg (by omega)]
  have hsub1 : sub (mkFrame header cmd payload) 2 (2 + header.length) = header := by
    rw [hassoc]
    have h2 : (u16be (header.length + cmd.length + payload.length)).length = 2 := by
      simp [u16be]
    calc sub (u16be (header.length + cmd.length + payload.length) ++
            (header ++ (cmd ++ payload))) 2 (2 + header.length)
        = sub (u16be (header.length + cmd.length + payload.length) ++
            (header ++ (cmd ++ payload)))
            (u16be (header.length + cmd.length + payload.length)).length
            ((u16be (header.length + cmd.length + payload.length)).length +
              header.length) := by rw [h2]
      _ = (header ++ (cmd ++ payload)).take header.length := sub_append _ _ _
      _ = header := by
            rw [List.take_append_eq_append_take, List.take_length,
              Nat.sub_self, List.take_zero, List.append_nil]
  rw [if_neg (by rw [hsub1]; exact fun h => h rfl)]
  rw [if_neg (by omega)]
  have hsub2 : sub (mkFrame header cmd payload) (2 + header.length)
      (2 + header.length + 2) = cmd := by
    have hassoc2 : mkFrame header cmd payload =
        (u16be (header.length + cmd.length + payload.length) ++ header) ++
          (cmd ++ payload) := by simp [mkFrame]
    have h2 : ((u16be (header.length + cmd.length + payload.length)) ++
        header).length = 2 + header.length := by simp [u16be]; omega
    rw [hassoc2]
    calc sub ((u16be (header.length + cmd.length + payload.length) ++ header) ++
            (cmd ++ payload)) (2 + header.length) (2 + header.length + 2)
        = sub ((u16be (header.length + cmd.length + payload.length) ++ header) ++
            (cmd ++ payload))
            ((u16be (header.length + cmd.length + payload.length) ++ header).length)
            ((u16be (header.length + cmd.length + payload.length) ++
              header).length + 2) := by rw [h2]
      _ = (cmd ++ payload).take 2 := sub_append _ _ _
      _ = cmd := by
            rw [List.take_append_eq_append_take, ← hcmd, List.take_length,
              Nat.sub_self, List.take_zero, List.append_nil]
  have hdrop : (mkFrame header cmd payload).drop (2 + header.length + 2) = payload := by
    have hassoc3 : mkFrame header cmd payload =
        ((u16be (header.length + cmd.length + payload.length) ++ header) ++ cmd) ++
          payload := by simp [mkFrame]
    have h3 : (((u16be (header.length + cmd.length + payload.length)) ++ header) ++
        cmd).length = 2 + header.length + 2 := by simp [u16be, hcmd]; omega
    rw [hassoc3, ← h3]
    exact List.drop_left _ _
  rw [hsub2, hdrop]

theorem hsmParse_mkFrame (cfg : Config) (cmd payload : Bytes)
    (hcmd : cmd.length = 2)
    (hlen : cfg.header.length + 2 + payload.length < 65536) :
    HSM.parse cfg (mkFrame cfg.header cmd payload) = parseCommand cmd payload := by
  unfold HSM.parse
  rw [parseMessage_mkFrame _ _ _ hcmd hlen]

theorem firstIdxFrom_eq_none (l : Bytes) (v : Nat) (h : v ∉ l) (i : Nat) :
    firstIdxFrom l v i = none := by
  induction l generalizing i with
  | nil => rfl
  | cons b rest ih =>
    simp only [firstIdxFrom]
    rw [if_neg (by rintro rfl; exact h (List.mem_cons_self _ _))]
    exact ih (fun hm => h (List.mem_cons_of_mem _ hm)) _

theorem jsIndexOf_eq_none (d : Bytes) (v s : Nat) (h : v ∉ d) :
    jsIndexOf d v s = none := by
  unfold jsIndexOf
  rw [firstIdxFrom_eq_none _ _ (fun hm => h (List.mem_of_mem_drop hm)) _]
  rfl

/-- C6: frame/grammar failures are fatal: a declared-length mismatch, a
header mismatch, and a CW or CY payload without the `;` delimiter all end
the session with no response (`SessionOutcome.closed`). -/
theorem frame_failures_close_connection :
    (∀ (c : Cipher) (cfg : Config) (rand data : Bytes),
        2 ≤ data.length → readU16BE data ≠ data.length - 2 →
        handleOne c cfg rand data = .closed)
  ∧ (∀ (c : Cipher) (cfg : Config) (rand data : Bytes),
        2 ≤ data.length → readU16BE data = data.length - 2 →
        sub data 2 (2 + cfg.header.length) ≠ cfg.header →
        handleOne c cfg rand data = .closed)
  ∧ (∀ (c : Cipher) (cfg : Config) (rand payload : Bytes),
        cfg.header.length + 2 + payload.length < 65536 → 0x3B ∉ payload →
        handleOne c cfg rand (mkFrame cfg.header (ascii "CW") payload) = .closed)
  ∧ (∀ (c : Cipher) (cfg : Config) (rand payload : Bytes),
        cfg.header.length + 2 + payload.length < 65536 → 0x3B ∉ payload →
        handleOne c cfg rand (mkFrame cfg.header (ascii "CY") payload) = .closed) := by
  refine ⟨?_, ?_, ?_, ?_⟩
  · intro c cfg rand data h2 hne
    have h1 : ¬ (data.length < 2) := by omega
    simp [handleOne, HSM.parse, MessageUtils.parseMessage, h1, hne]
  · intro c cfg rand data h2 hlen hmis
    have h1 : ¬ (data.length < 2) := by omega
    by_cases hsh : data.length < 2 + cfg.header.length
    · simp [handleOne, HSM.parse, MessageUtils.parseMessage, h1, hlen, hsh]
    · simp [handleOne, HSM.parse, MessageUtils.parseMessage, h1, hlen, hsh, hmis]
  · intro c cfg rand payload hlen hnot
    have hp : HSM.parse cfg (mkFrame cfg.header (ascii "CW") payload) =
        parseCommand (ascii "CW") payload := hsmParse_mkFrame cfg _ payload rfl hlen
    have hcw : parseCW payload = .error () := by
      simp [parseCW, jsIndexOf_eq_none _ _ _ hnot]
    have hpc : parseCommand (ascii "CW") payload = none := by
      simp +decide [parseCommand, hcw, exOpt]
    simp [handleOne, hp, hpc]
  · intro c cfg rand payload hlen hnot
    have hp : HSM.parse cfg (mkFrame cfg.header (ascii "CY") payload) =
        parseCommand (ascii "CY") payload := hsmParse_mkFrame cfg _ payload rfl hlen
    have hcy : parseCY payload = .error () := by
      simp [parseCY, jsIndexOf_eq_none _ _ _ hnot]
    have hpc : parseCommand (ascii "CY") payload = none := by
      simp +decide [parseCommand, hcy, exOpt]
    simp [handleOne, hp, hpc]

theorem frame_failures_close_connection_witness :
    handleOne idCipher cfg0 [] [0, 5, 65] = .closed
  ∧ handleOne idCipher ⟨ascii "SS", [], false, false⟩ []
      ([0, 4] ++ ascii "XX" ++ ascii "NC") = .closed
  ∧ handleOne idCipher cfg0 [] (mkFrame [] (ascii "CW") (ascii "AAAA")) = .closed
  ∧ handleOne idCipher cfg0 [] (mkFrame [] (ascii "CY") (ascii "AAAA")) = .closed :=
  ⟨frame_failures_close_connection.1 idCipher cfg0 [] [0, 5, 65]
      (by decide) (by decide),
   frame_failures_close_connection.2.1 idCipher ⟨ascii "SS", [], false, false⟩ []
      ([0, 4] ++ ascii "XX" ++ ascii "NC") (by decide) (by decide) (by decide),
   frame_failures_close_connection.2.2.1 idCipher cfg0 [] (ascii "AAAA")
      (by decide) (by decide),
   frame_failures_close_connection.2.2.2 idCipher cfg0 [] (ascii "AAAA")
      (by decide) (by decide)⟩

/-- C2 counterexample: a well-framed request with the unknown command code
`ZX` does NOT receive a ZZ/00 response — `HSM.parseMessage` returns null
for it and the session loop closes the connection without replying. -/
theorem unsupported_zx_closes_connection :
    handleOne idCipher cfg0 [] (mkFrame [] (ascii "ZX") []) = .closed := by
  decide

/-- C2 amended: a command code the parser recognises but `getResponse` has
no handler for (here FA) is answered with response code ZZ, error code 00
and no further fields; a code the parser does not recognise (such as ZX,
see the counterexample) closes the connection with no response. -/
theorem parser_known_unhandled_replies_zz
    (c : Cipher) (cfg : Config) (rand payload : Bytes)
    (hlen : cfg.header.length + 2 + payload.length < 65536) :
    handleOne c cfg rand (mkFrame cfg.header (ascii "FA") payload) =
      .reply (mkFrame cfg.header (ascii "ZZ") (ascii "00")) := by
  have hp : HSM.parse cfg (mkFrame cfg.header (ascii "FA") payload) =
      parseCommand (ascii "FA") payload := hsmParse_mkFrame cfg _ payload rfl hlen
  have hpc : parseCommand (ascii "FA") payload = some (parseFA payload) := by
    simp +decide [parseCommand]
  have hcmd : (parseFA payload).cmd = ascii "FA" := by
    simp [parseFA]
  have hresp : HSM.getResponse c cfg rand (parseFA payload) =
      .ok (((OutgoingMessage.empty cfg.header).setResponseCode "ZZ").setErrorCode
        "00") := by
    simp +decide [HSM.getResponse, hcmd]
  simp only [handleOne, hp, hpc, hresp]
  have hbuild : (((OutgoingMessage.empty cfg.header).setResponseCode
      "ZZ").setErrorCode "00").build = mkFrame cfg.header (ascii "ZZ") (ascii "00") := by
    simp [OutgoingMessage.build, OutgoingMessage.setResponseCode,
      OutgoingMessage.setErrorCode, OutgoingMessage.empty, setField, mkFrame,
      ascii, u16be]
  rw [hbuild]

theorem parser_known_unhandled_replies_zz_witness :
    handleOne idCipher cfg0 [] (mkFrame [] (ascii "FA") []) =
      .reply (mkFrame [] (ascii "ZZ") (ascii "00")) :=
  parser_known_unhandled_replies_zz idCipher cfg0 [] [] (by decide)

/-- C10: a DC payload whose first byte is none of `U`/`T`/`S` still parses
(no `TPK` field is stored) and the handler replies DD with error 10 (00
under approve-all) — a missing terminal key is a semantic failure, not a
grammar failure closing the connection. -/
theorem dc_without_tpk_replies_dd_10
    (c : Cipher) (cfg : Config) (rand payload : Bytes)
    (hlen : cfg.header.length + 2 + payload.length < 65536)
    (h0 : peek payload 0 ≠ 0x55) (h1 : peek payload 0 ≠ 0x54)
    (h2 : peek payload 0 ≠ 0x53) :
    HSM.parse cfg (mkFrame cfg.header (ascii "DC") payload) = some (parseDC payload)
  ∧ (parseDC payload).get "TPK" = none
  ∧ handleOne c cfg rand (mkFrame cfg.header (ascii "DC") payload) =
      .reply (mkFrame cfg.header (ascii "DD")
        (ascii (if cfg.approveAll then "00" else "10"))) := by
  have hp : HSM.parse cfg (mkFrame cfg.header (ascii "DC") payload) =
      parseCommand (ascii "DC") payload := hsmParse_mkFrame cfg _ payload rfl hlen
  have hpc : parseCommand (ascii "DC") payload = some (parseDC payload) := by
    simp +decide [parseCommand]
  have hfields : (parseDC payload).fields =
      [("PVK Pair", sub payload 0 (if peek payload 0 = 0x55 then 33 else 32)),
       ("PIN block", sub payload ((if peek payload 0 = 0x55 then 33 else 32))
          ((if peek payload 0 = 0x55 then 33 else 32) + 16)),
       ("PIN block format code", sub payload
          ((if peek payload 0 = 0x55 then 33 else 32) + 16)
          ((if peek payload 0 = 0x55 then 33 else 32) + 18)),
       ("Account Number", sub payload
          ((if peek payload 0 = 0x55 then 33 else 32) + 18)
          ((if peek payload 0 = 0x55 then 33 else 32) + 30)),
       ("PVKI", sub payload ((if peek payload 0 = 0x55 then 33 else 32) + 30)
          ((if peek payload 0 = 0x55 then 33 else 32) + 31)),
       ("PVV", sub payload ((if peek payload 0 = 0x55 then 33 else 32) + 31)
          ((if peek payload 0 = 0x55 then 33 else 32) + 35))] := by
    simp [parseDC, h0, h1, h2]
  have htpk : (parseDC payload).get "TPK" = none := by
    simp +decide [Request.get, hfields, getField]
  have hcmd : (parseDC payload).cmd = ascii "DC" := by simp [parseDC]
  have hvp : HSM.verifyPin c cfg (parseDC payload) =
      (((OutgoingMessage.empty cfg.header).setResponseCode "DD").setErrorCode
        (if cfg.approveAll then "00" else "10")) := by
    simp +decide [HSM.verifyPin, hcmd, htpk]
  have hresp : HSM.getResponse c cfg rand (parseDC payload) =
      .ok (((OutgoingMessage.empty cfg.header).setResponseCode "DD").setErrorCode
        (if cfg.approveAll then "00" else "10")) := by
    simp +decide [HSM.getResponse, hcmd, hvp]
  refine ⟨by rw [hp, hpc], htpk, ?_⟩
  simp only [handleOne, hp, hpc, hresp]
  by_cases hA : cfg.approveAll <;>
    simp [hA, OutgoingMessage.build, OutgoingMessage.setResponseCode,
      OutgoingMessage.setErrorCode, OutgoingMessage.empty, setField, mkFrame,
      ascii, u16be]

theorem dc_without_tpk_replies_dd_10_witness :
    HSM.parse cfg0 (mkFrame [] (ascii "DC") (ascii "X")) =
      some (parseDC (ascii "X"))
  ∧ (parseDC (ascii "X")).get "TPK" = none
  ∧ handleOne idCipher cfg0 [] (mkFrame [] (ascii "DC") (ascii "X")) =
      .reply (mkFrame [] (ascii "DD") (ascii (if cfg0.approveAll then "00" else "10"))) :=
  dc_without_tpk_replies_dd_10 idCipher cfg0 [] (ascii "X")
    (by decide) (by decide) (by decide) (by decide)

/-! ## Response-code lemmas (C7) -/

theorem get_rc_setErrorCode (r : OutgoingMessage) (e : String) :
    (r.setErrorCode e).get "Response Code" = r.get "Response Code" := by
  simp only [OutgoingMessage.setErrorCode, OutgoingMessage.get]
  exact getField_setField_other _ _ _ _ (by decide)

theorem get_rc_set (r : OutgoingMessage) (k : String) (v : Bytes)
    (h : k ≠ "Response Code") :
    (r.set k v).get "Response Code" = r.get "Response Code" := by
  simp only [OutgoingMessage.set, OutgoingMessage.get]
  exact getField_setField_other _ _ _ _ h

theorem get_rc_setResponseCode (r : OutgoingMessage) (code : String) :
    (r.setResponseCode code).get "Response Code" = some (ascii code) := by
  simp only [OutgoingMessage.setResponseCode, OutgoingMessage.get]
  exact getField_setField_same _ _ _

theorem verifyPin_respCode (c : Cipher) (cfg : Config) (req : Request) :
    (HSM.verifyPin c cfg req).get "Response Code" =
      some (ascii (if req.cmd = ascii "DC" then "DD" else "ED")) := by
  have hfin : ∀ e : String,
      ((((OutgoingMessage.empty cfg.header).setResponseCode
          (if req.cmd = ascii "DC" then "DD" else "ED")).setErrorCode e)).get
        "Response Code" =
        some (ascii (if req.cmd = ascii "DC" then "DD" else "ED")) := by
    intro e
    rw [get_rc_setErrorCode, get_rc_setResponseCode]
  unfold HSM.verifyPin
  dsimp only
  cases h1 : req.get (if req.cmd = ascii "DC" then "TPK" else "ZPK") with
  | none => exact hfin _
  | some key =>
    dsimp only
    by_cases h2 : HSM.checkKeyParity c cfg key = false
    · rw [if_pos h2]
      exact hfin _
    · rw [if_neg h2]
      cases h3 : req.get "PVK Pair" with
      | none => exact hfin _
      | some pvkPair =>
        dsimp only
        by_cases h4 : HSM.checkKeyParity c cfg pvkPair = false
        · rw [if_pos h4]
          exact hfin _
        · rw [if_neg h4]
          by_cases h5 : pvkPair.length ≠ 32
          · rw [if_pos h5]
            exact hfin _
          · rw [if_neg h5]
            cases h6 : HSM.verifyPinTry c cfg req key pvkPair with
            | ok err => exact hfin _
            | error e => exact hfin _

theorem verifyCvv_respCode (c : Cipher) (cfg : Config) (req : Request)
    (r : OutgoingMessage) (h : HSM.verifyCvv c cfg req = .ok r) :
    r.get "Response Code" = some (ascii "CZ") := by
  have hfin : ∀ e : String,
      r = ((OutgoingMessage.empty cfg.header).setResponseCode "CZ").setErrorCode e →
      r.get "Response Code" = some (ascii "CZ") := by
    rintro e rfl
    rw [get_rc_setErrorCode, get_rc_setResponseCode]
  unfold HSM.verifyCvv at h
  cases hcvk : req.get "CVK" <;> rw [hcvk] at h <;> dsimp only at h
  case none => exact Except.noConfusion h
  case some cvk =>
  by_cases hp : HSM.checkKeyParity c cfg cvk = false
  · rw [if_pos hp] at h
    injection h with h
    exact hfin _ h.symm
  · rw [if_neg hp] at h
    cases h1 : req.get "Primary Account Number" <;> rw [h1] at h
    · exact Except.noConfusion h
    cases h2 : req.get "Expiration Date" <;> rw [h2] at h
    · exact Except.noConfusion h
    cases h3 : req.get "Service Code" <;> rw [h3] at h
    · exact Except.noConfusion h
    cases h4 : req.get "CVV" <;> rw [h4] at h
    · exact Except.noConfusion h
    dsimp only at h
    repeat' split at h
    all_goals
      injection h with h
      exact hfin _ h.symm

theorem generateCvv_respCode (c : Cipher) (cfg : Config) (req : Request)
    (r : OutgoingMessage) (h : HSM.generateCvv c cfg req = .ok r) :
    r.get "Response Code" = some (ascii "CX") := by
  unfold HSM.generateCvv at h
  cases hcvk : req.get "CVK" <;> rw [hcvk] at h <;> dsimp only at h
  case none => exact Except.noConfusion h
  case some cvk =>
  by_cases hp : HSM.checkKeyParity c cfg cvk = false
  · rw [if_pos hp] at h
    injection h with h
    subst h
    rw [get_rc_setErrorCode, get_rc_setResponseCode]
  · rw [if_neg hp] at h
    cases h1 : req.get "Primary Account Number" <;> rw [h1] at h
    · exact Except.noConfusion h
    cases h2 : req.get "Expiration Date" <;> rw [h2] at h
    · exact Except.noConfusion h
    cases h3 : req.get "Service Code" <;> rw [h3] at h
    · exact Except.noConfusion h
    dsimp only at h
    injection h with h
    subst h
    rw [get_rc_set _ _ _ (by decide), get_rc_setErrorCode, get_rc_setResponseCode]

theorem bu_respCode (c : Cipher) (cfg : Config) (req : Request)
    (r : OutgoingMessage) (h : HSM.getKeyCheckValue c cfg req = .ok r) :
    r.get "Response Code" = some (ascii "BV") := by
  unfold HSM.getKeyCheckValue at h
  cases hk : req.get "Key" <;> rw [hk] at h <;> dsimp only at h
  case none => exact Except.noConfusion h
  case some key =>
  injection h with h
  subst h
  rw [get_rc_set _ _ _ (by decide), get_rc_setErrorCode, get_rc_setResponseCode]

theorem generateKeyA0_respCode (c : Cipher) (cfg : Config) (rand : Bytes)
    (req : Request) :
    (HSM.generateKeyA0 c cfg rand req).get "Response Code" = some (ascii "A1") := by
  unfold HSM.generateKeyA0
  dsimp only
  cases hz : req.get "ZMK/TMK" with
  | none =>
    rw [get_rc_set _ _ _ (by decide), get_rc_setErrorCode, get_rc_setResponseCode]
  | some zmkTmk =>
    dsimp only
    rw [get_rc_set _ _ _ (by decide), get_rc_set _ _ _ (by decide),
      get_rc_set _ _ _ (by decide), get_rc_setErrorCode, get_rc_setResponseCode]

theorem getDiagnosticsData_respCode (c : Cipher) (cfg : Config) :
    (HSM.getDiagnosticsData c cfg).get "Response Code" = some (ascii "ND") := by
  simp +decide [HSM.getDiagnosticsData, OutgoingMessage.get, OutgoingMessage.set,
    OutgoingMessage.setErrorCode, OutgoingMessage.setResponseCode,
    OutgoingMessage.empty, setField, getField]

theorem get_ec_setErrorCode (r : OutgoingMessage) (e : String) :
    (r.setErrorCode e).get "Error Code" = some (ascii e) := by
  simp only [OutgoingMessage.setErrorCode, OutgoingMessage.get]
  exact getField_setField_same _ _ _

/-- C7 counterexample: CA is listed in the §4.2 table with response code
CB, but a well-formed CA request is answered with response code ZZ (it has
no branch in `getResponse`). -/
theorem ca_request_gets_zz_not_cb :
    handleOne idCipher cfg0 [] (mkFrame [] (ascii "CA") []) =
      .reply (mkFrame [] (ascii "ZZ") (ascii "00"))
  ∧ ascii "ZZ" ≠ ascii "CB" := by decide

/-- C7 amended: for the §4.2-table commands that `getResponse` actually
handles (NC, A0, BU, CW, CY, DC, EC) every emitted response carries the
table's response code regardless of the error code; the remaining table
commands CA, FA and HC fall through to the default branch and are answered
ZZ with error 00. -/
theorem response_codes_fixed_amended
    (c : Cipher) (cfg : Config) (rand : Bytes) (req : Request)
    (r : OutgoingMessage) (h : HSM.getResponse c cfg rand req = .ok r) :
    (req.cmd = ascii "NC" → r.get "Response Code" = some (ascii "ND"))
  ∧ (req.cmd = ascii "A0" → r.get "Response Code" = some (ascii "A1"))
  ∧ (req.cmd = ascii "BU" → r.get "Response Code" = some (ascii "BV"))
  ∧ (req.cmd = ascii "CW" → r.get "Response Code" = some (ascii "CX"))
  ∧ (req.cmd = ascii "CY" → r.get "Response Code" = some (ascii "CZ"))
  ∧ (req.cmd = ascii "DC" → r.get "Response Code" = some (ascii "DD"))
  ∧ (req.cmd = ascii "EC" → r.get "Response Code" = some (ascii "ED"))
  ∧ (req.cmd = ascii "CA" → r.get "Response Code" = some (ascii "ZZ") ∧
      r.get "Error Code" = some (ascii "00"))
  ∧ (req.cmd = ascii "FA" → r.get "Response Code" = some (ascii "ZZ") ∧
      r.get "Error Code" = some (ascii "00"))
  ∧ (req.cmd = ascii "HC" → r.get "Response Code" = some (ascii "ZZ") ∧
      r.get "Error Code" = some (ascii "00")) := by
  refine ⟨?_, ?_, ?_, ?_, ?_, ?_, ?_, ?_, ?_, ?_⟩
  · intro hcmd
    simp +decide [HSM.getResponse, hcmd] at h
    subst h
    exact getDiagnosticsData_respCode c cfg
  · intro hcmd
    simp +decide [HSM.getResponse, hcmd] at h
    subst h
    exact generateKeyA0_respCode c cfg rand req
  · intro hcmd
    simp +decide [HSM.getResponse, hcmd] at h
    exact bu_respCode c cfg req r h
  · intro hcmd
    simp +decide [HSM.getResponse, hcmd] at h
    exact generateCvv_respCode c cfg req r h
  · intro hcmd
    simp +decide [HSM.getResponse, hcmd] at h
    exact verifyCvv_respCode c cfg req r h
  · intro hcmd
    simp +decide [HSM.getResponse, hcmd] at h
    subst h
    simpa [hcmd] using verifyPin_respCode c cfg req
  · intro hcmd
    simp +decide [HSM.getResponse, hcmd] at h
    subst h
    simpa +decide [hcmd] using verifyPin_respCode c cfg req
  · intro hcmd
    simp +decide [HSM.getResponse, hcmd] at h
    subst h
    constructor
    · rw [get_rc_setErrorCode, get_rc_setResponseCode]
    · rw [get_ec_setErrorCode]
  · intro hcmd
    simp +decide [HSM.getResponse, hcmd] at h
    subst h
    constructor
    · rw [get_rc_setErrorCode, get_rc_setResponseCode]
    · rw [get_ec_setErrorCode]
  · intro hcmd
    simp +decide [HSM.getResponse, hcmd] at h
    subst h
    constructor
    · rw [get_rc_setErrorCode, get_rc_setResponseCode]
    · rw [get_ec_setErrorCode]

theorem response_codes_fixed_amended_witness :
    (HSM.getDiagnosticsData idCipher cfg0).get "Response Code" =
      some (ascii "ND") :=
  (response_codes_fixed_amended idCipher cfg0 [] ⟨ascii "NC", []⟩
    (HSM.getDiagnosticsData idCipher cfg0) rfl).1 rfl

/-! ## Approve-all asymmetry (C3) and PVK double-length check (C4) -/

/-- Configuration with approve-all switched on (parity still checked). -/
def cfgApprove : Config := ⟨[], [], false, true⟩

/-- DC payload: TPK = `U` + 32 odd-parity bytes (0x01), PVK pair = 32
even-parity bytes (0x00), then PIN block / format / account / PVKI / PVV. -/
def dcPayloadPvkBad : Bytes :=
  (85 :: List.replicate 32 1) ++ List.replicate 32 0 ++ List.replicate 16 48 ++
    ascii "01" ++ ascii "000000000000" ++ ascii "1" ++ ascii "0000"

/-- DC payload whose PVK pair is the 33-byte `U`-prefixed envelope with
odd-parity key material. -/
def dcPayloadPvkU : Bytes :=
  (85 :: List.replicate 32 1) ++ (85 :: List.replicate 32 1) ++
    List.replicate 16 48 ++ ascii "01" ++ ascii "000000000000" ++
    ascii "1" ++ ascii "0000"

/-- C3 counterexample: with approve_all on, a DC request whose TPK passes
parity but whose PVK pair fails it is answered with error code 00 — so
approve_all DOES override error code 11 (the same request under
approve_all off draws 11). -/
theorem approve_all_overrides_pvk_parity_error :
    HSM.checkKeyParity idCipher cfgApprove
      (((parseDC dcPayloadPvkBad).get "TPK").getD []) = true
  ∧ HSM.checkKeyParity idCipher cfgApprove
      (((parseDC dcPayloadPvkBad).get "PVK Pair").getD []) = false
  ∧ (HSM.verifyPin idCipher cfgApprove (parseDC dcPayloadPvkBad)).get
      "Error Code" = some (ascii "00")
  ∧ (HSM.verifyPin idCipher cfg0 (parseDC dcPayloadPvkBad)).get
      "Error Code" = some (ascii "11") := by
  decide

/-- C4 counterexample: a DC request whose PVK pair is the 33-byte
`U`-prefixed envelope and passes the parity check is still answered with
error code 27 (approve_all off) — the double-length check compares the
stored field length against 32 and the envelope is 33 bytes. -/
theorem u_enveloped_pvk_pair_gets_27 :
    (parseDC dcPayloadPvkU).get "PVK Pair" = some (85 :: List.replicate 32 1)
  ∧ HSM.checkKeyParity idCipher cfg0 (85 :: List.replicate 32 1) = true
  ∧ (HSM.verifyPin idCipher cfg0 (parseDC dcPayloadPvkU)).get "Error Code" =
      some (ascii "27") := by
  decide

/-- C3 amended: the approve-all override asymmetry. (1) In CY
verification a CVK parity failure yields 10 whatever the flags; (2) in
DC/EC verification a terminal-key parity failure yields 00 under
approve-all; (3) a CY CVV mismatch yields 00 under approve-all; and —
the corrected part — in PIN verification approve-all ALSO overrides (4)
the PVK-parity error 11 and (5) the double-length error 27 to 00 ('11'
and '27' are simply never emitted on the CVV path). -/
theorem approve_all_override_asymmetry :
    (∀ (c : Cipher) (cfg : Config) (req : Request) (cvk : Bytes)
        (r : OutgoingMessage),
        req.get "CVK" = some cvk → HSM.checkKeyParity c cfg cvk = false →
        HSM.verifyCvv c cfg req = .ok r →
        r.get "Error Code" = some (ascii "10"))
  ∧ (∀ (c : Cipher) (cfg : Config) (req : Request) (key : Bytes),
        cfg.approveAll = true → req.cmd = ascii "DC" →
        req.get "TPK" = some key → HSM.checkKeyParity c cfg key = false →
        (HSM.verifyPin c cfg req).get "Error Code" = some (ascii "00"))
  ∧ (∀ (c : Cipher) (cfg : Config) (req : Request) (cvk pan expiry svc cvv : Bytes),
        cfg.approveAll = true →
        req.get "CVK" = some cvk → HSM.checkKeyParity c cfg cvk ≠ false →
        req.get "Primary Account Number" = some pan →
        req.get "Expiration Date" = some expiry →
        req.get "Service Code" = some svc →
        req.get "CVV" = some cvv →
        PinUtils.getVisaCVV c pan expiry svc
            (c.dec cfg.lmk (hexRT (if peek cvk 0 = 0x55 then cvk.drop 1 else cvk)))
          ≠ decodeAscii cvv →
        HSM.verifyCvv c cfg req =
          .ok (((OutgoingMessage.empty cfg.header).setResponseCode
            "CZ").setErrorCode "00"))
  ∧ (∀ (c : Cipher) (cfg : Config) (req : Request) (key pvk : Bytes),
        cfg.approveAll = true → req.cmd = ascii "DC" →
        req.get "TPK" = some key → HSM.checkKeyParity c cfg key ≠ false →
        req.get "PVK Pair" = some pvk → HSM.checkKeyParity c cfg pvk = false →
        (HSM.verifyPin c cfg req).get "Error Code" = some (ascii "00"))
  ∧ (∀ (c : Cipher) (cfg : Config) (req : Request) (key pvk : Bytes),
        cfg.approveAll = true → req.cmd = ascii "DC" →
        req.get "TPK" = some key → HSM.checkKeyParity c cfg key ≠ false →
        req.get "PVK Pair" = some pvk → HSM.checkKeyParity c cfg pvk ≠ false →
        pvk.length ≠ 32 →
        (HSM.verifyPin c cfg req).get "Error Code" = some (ascii "00")) := by
  refine ⟨?_, ?_, ?_, ?_, ?_⟩
  · intro c cfg req cvk r hcvk hpar h
    unfold HSM.verifyCvv at h
    rw [hcvk] at h
    dsimp only at h
    rw [if_pos hpar] at h
    injection h with h
    rw [← h, get_ec_setErrorCode]
  · intro c cfg req key hA hcmd hkey hpar
    unfold HSM.verifyPin
    dsimp only
    simp only [hcmd, eq_self_iff_true, if_true]
    rw [hkey]
    dsimp only
    rw [if_pos hpar, hA]
    simp only [if_true]
    rw [get_ec_setErrorCode]
  · intro c cfg req cvk pan expiry svc cvv hA hcvk hpar h1 h2 h3 h4 hmis
    unfold HSM.verifyCvv
    rw [hcvk]
    dsimp only
    rw [if_neg hpar, h1, h2, h3, h4]
    dsimp only
    rw [if_neg hmis, hA]
    simp only [if_true]
  · intro c cfg req key pvk hA hcmd hkey hkp hpvk hpp
    unfold HSM.verifyPin
    dsimp only
    simp only [hcmd, eq_self_iff_true, if_true]
    rw [hkey]
    dsimp only
    rw [if_neg hkp, hpvk]
    dsimp only
    rw [if_pos hpp, hA]
    simp only [if_true]
    rw [get_ec_setErrorCode]
  · intro c cfg req key pvk hA hcmd hkey hkp hpvk hpp hlen
    unfold HSM.verifyPin
    dsimp only
    simp only [hcmd, eq_self_iff_true, if_true]
    rw [hkey]
    dsimp only
    rw [if_neg hkp, hpvk]
    dsimp only
    rw [if_neg hpp, if_pos hlen, hA]
    simp only [if_true]
    rw [get_ec_setErrorCode]

theorem approve_all_override_asymmetry_witness :
    ((((OutgoingMessage.empty ([] : Bytes)).setResponseCode "CZ").setErrorCode
        "10")).get "Error Code" = some (ascii "10")
  ∧ (HSM.verifyPin idCipher cfgApprove
      ⟨ascii "DC", [("TPK", List.replicate 32 0)]⟩).get "Error Code" =
        some (ascii "00")
  ∧ HSM.verifyCvv idCipher cfgApprove
      ⟨ascii "CY", [("CVK", List.replicate 33 1),
        ("Primary Account Number", []), ("Expiration Date", []),
        ("Service Code", []), ("CVV", ascii "XXX")]⟩ =
        .ok (((OutgoingMessage.empty ([] : Bytes)).setResponseCode
          "CZ").setErrorCode "00")
  ∧ (HSM.verifyPin idCipher cfgApprove
      ⟨ascii "DC", [("TPK", 85 :: List.replicate 32 1),
        ("PVK Pair", List.replicate 32 0)]⟩).get "Error Code" =
        some (ascii "00")
  ∧ (HSM.verifyPin idCipher cfgApprove
      ⟨ascii "DC", [("TPK", 85 :: List.replicate 32 1),
        ("PVK Pair", 85 :: List.replicate 32 1)]⟩).get "Error Code" =
        some (ascii "00") :=
  ⟨approve_all_override_asymmetry.1 idCipher cfgApprove
      ⟨ascii "CY", [("CVK", List.replicate 33 0)]⟩ (List.replicate 33 0) _
      (by decide) (by decide) rfl,
   approve_all_override_asymmetry.2.1 idCipher cfgApprove
      ⟨ascii "DC", [("TPK", List.replicate 32 0)]⟩ (List.replicate 32 0)
      rfl rfl (by decide) (by decide),
   approve_all_override_asymmetry.2.2.1 idCipher cfgApprove
      ⟨ascii "CY", [("CVK", List.replicate 33 1),
        ("Primary Account Number", []), ("Expiration Date", []),
        ("Service Code", []), ("CVV", ascii "XXX")]⟩
      (List.replicate 33 1) [] [] [] (ascii "XXX")
      rfl (by decide) (by decide) (by decide) (by decide) (by decide) (by decide)
      (by decide),
   approve_all_override_asymmetry.2.2.2.1 idCipher cfgApprove
      ⟨ascii "DC", [("TPK", 85 :: List.replicate 32 1),
        ("PVK Pair", List.replicate 32 0)]⟩
      (85 :: List.replicate 32 1) (List.replicate 32 0)
      rfl rfl (by decide) (by decide) (by decide) (by decide),
   approve_all_override_asymmetry.2.2.2.2 idCipher cfgApprove
      ⟨ascii "DC", [("TPK", 85 :: List.replicate 32 1),
        ("PVK Pair", 85 :: List.replicate 32 1)]⟩
      (85 :: List.replicate 32 1) (85 :: List.replicate 32 1)
      rfl rfl (by decide) (by decide) (by decide) (by decide) (by decide)⟩

/-- C4 amended: the double-length check compares the STORED field length
against 32, so a parity-passing PVK pair supplied as the 33-byte
`U`-prefixed envelope is rejected with error 27 (when approve-all is
off); only an unprefixed 32-byte PVK pair passes the check. -/
theorem pvk_envelope_rejected_as_not_double_length
    (c : Cipher) (cfg : Config) (req : Request) (key pvk : Bytes)
    (hA : cfg.approveAll = false) (hcmd : req.cmd = ascii "DC")
    (hkey : req.get "TPK" = some key)
    (hkp : HSM.checkKeyParity c cfg key ≠ false)
    (hpvk : req.get "PVK Pair" = some pvk)
    (hpp : HSM.checkKeyParity c cfg pvk ≠ false)
    (hlen : pvk.length = 33) :
    (HSM.verifyPin c cfg req).get "Error Code" = some (ascii "27") := by
  unfold HSM.verifyPin
  dsimp only
  simp only [hcmd, eq_self_iff_true, if_true]
  rw [hkey]
  dsimp only
  rw [if_neg hkp, hpvk]
  dsimp only
  rw [if_neg hpp, if_pos (by omega : pvk.length ≠ 32), hA]
  simp only [Bool.false_eq_true, if_false]
  rw [get_ec_setErrorCode]

theorem pvk_envelope_rejected_as_not_double_length_witness :
    (HSM.verifyPin idCipher cfg0 (parseDC dcPayloadPvkU)).get "Error Code" =
      some (ascii "27") :=
  pvk_envelope_rejected_as_not_double_length idCipher cfg0
    (parseDC dcPayloadPvkU) (85 :: List.replicate 32 1)
    (85 :: List.replicate 32 1) rfl (by decide) (by decide) (by decide)
    (by decide) (by decide) (by decide)

/-! ## BU key-check-value semantics (C5) -/

theorem get_ec_set (r : OutgoingMessage) (k : String) (v : Bytes)
    (h : k ≠ "Error Code") :
    (r.set k v).get "Error Code" = r.get "Error Code" := by
  simp only [OutgoingMessage.set, OutgoingMessage.get]
  exact getField_setField_other _ _ _ _ h

theorem get_set_same (r : OutgoingMessage) (k : String) (v : Bytes) :
    (r.set k v).get k = some v := by
  simp only [OutgoingMessage.set, OutgoingMessage.get]
  exact getField_setField_same _ _ _

/-- The conversion the C5 claim describes, written from the spec's words:
treat the 32 ASCII hex characters as text and decode them into the 16
binary bytes they denote.  (The code instead round-trips the raw bytes
through hex, which is the identity — compare `bu_kcv_amended`.) -/
def specHexDecode (b : Bytes) : Bytes := bufferFromHex (decodeAscii b)

/-- The BU payload of spec scenario 2. -/
def buPayloadU : Bytes := ascii "021UA97831862E31CCC36E854FE184EE6453"

/-- C5 counterexample: under a cipher whose ciphertext records the key
length, the BU handler emits a KCV computed under the 32 ASCII bytes
(key length 32), not under the 16 binary bytes those characters denote
(key length 16) as the claim states. -/
theorem bu_kcv_uses_ascii_key_counterexample :
    (match HSM.getKeyCheckValue lenCipher cfg0 (parseBU buPayloadU) with
     | .ok r => r.get "Key Check Value"
     | .error _ => none) = some [32]
  ∧ CryptoUtils.getKeyCheckValue lenCipher
      (specHexDecode (ascii "A97831862E31CCC36E854FE184EE6453")) 16 = [16]
  ∧ ([32] : Bytes) ≠ [16] := by
  decide

/-- C5 amended: for a BU request with a `U`-prefixed Key field the
handler strips the `U`, round-trips the remaining 32 ASCII bytes through
hex (the identity on byte buffers — NOT a decode to 16 binary bytes) and
emits, with response code BV and error code 00, the field `Key Check
Value` holding the first 16 bytes of the encryption of eight zero bytes
under those 32 ASCII bytes (for an 8-byte block cipher that is the whole
8-byte ciphertext). -/
theorem bu_kcv_amended (c : Cipher) (cfg : Config) (req : Request) (key : Bytes)
    (hkey : req.get "Key" = some key) (hU : peek key 0 = 0x55)
    (hb : ∀ x ∈ key, x < 256) :
    HSM.getKeyCheckValue c cfg req =
      .ok (((((OutgoingMessage.empty cfg.header).setResponseCode
        "BV").setErrorCode "00").set "Key Check Value"
        ((c.enc (key.drop 1) (List.replicate 8 0)).take 16)))
  ∧ ∀ r, HSM.getKeyCheckValue c cfg req = .ok r →
      r.get "Response Code" = some (ascii "BV")
    ∧ r.get "Error Code" = some (ascii "00")
    ∧ r.get "Key Check Value" =
        some ((c.enc (key.drop 1) (List.replicate 8 0)).take 16) := by
  have hdropb : ∀ x ∈ key.drop 1, x < 256 :=
    fun x hx => hb x (List.mem_of_mem_drop hx)
  have hmain : HSM.getKeyCheckValue c cfg req =
      .ok (((((OutgoingMessage.empty cfg.header).setResponseCode
        "BV").setErrorCode "00").set "Key Check Value"
        ((c.enc (key.drop 1) (List.replicate 8 0)).take 16))) := by
    unfold HSM.getKeyCheckValue
    rw [hkey]
    dsimp only
    rw [if_pos hU]
    rw [hexRT_eq _ hdropb]
    rfl
  refine ⟨hmain, ?_⟩
  intro r hr
  rw [hmain] at hr
  injection hr with hr
  subst hr
  refine ⟨?_, ?_, ?_⟩
  · rw [get_rc_set _ _ _ (by decide), get_rc_setErrorCode, get_rc_setResponseCode]
  · rw [get_ec_set _ _ _ (by decide), get_ec_setErrorCode]
  · rw [get_set_same]

theorem bu_kcv_amended_witness :
    HSM.getKeyCheckValue idCipher cfg0 (parseBU buPayloadU) =
      .ok (((((OutgoingMessage.empty ([] : Bytes)).setResponseCode
        "BV").setErrorCode "00").set "Key Check Value"
        ((idCipher.enc ((sub buPayloadU 3 36).drop 1)
          (List.replicate 8 0)).take 16))) :=
  (bu_kcv_amended idCipher cfg0 (parseBU buPayloadU) (sub buPayloadU 3 36)
    (by decide) (by decide) (by decide)).1

deriving instance DecidableEq for Except

/-! ## BU request with no Key field (C9) -/

/-- C9: the BU payload "0001" parses (byte 3 is not `U`, so no `Key`
field is stored), the handler dereferences the absent field and throws,
the exception escapes `getResponse` (no try/catch on the dispatch path)
and the session step ends in `crash`: no response frame is built. -/
theorem bu_without_key_crashes :
    HSM.parse cfg0 (mkFrame [] (ascii "BU") (ascii "0001")) =
      some (parseBU (ascii "0001"))
  ∧ (parseBU (ascii "0001")).get "Key" = none
  ∧ HSM.getResponse idCipher cfg0 [] (parseBU (ascii "0001")) = .error ()
  ∧ handleOne idCipher cfg0 [] (mkFrame [] (ascii "BU") (ascii "0001")) =
      .crash := by
  decide

/-! ## PIN extraction (C8) -/

theorem hexVal_hexUpper (k : Nat) (hk : k < 16) : hexVal (hexUpper k) = k := by
  interval_cases k <;> decide

theorem bufferToHexUpper_length (l : Bytes) :
    (bufferToHexUpper l).length = 2 * l.length := by
  induction l with
  | nil => rfl
  | cons x xs ih => simp [bufferToHexUpper] at ih ⊢; omega

/-- C8: on an 8-byte PIN block, `getClearPin` returns only strings of 4
to 12 decimal digits; it throws when the first nibble is outside [4,12]
and when any of the selected nibbles is not a decimal digit. -/
theorem getClearPin_digits_and_range (p a : Bytes) (hp : p.length = 8)
    (hb : ∀ x ∈ p, x < 256) :
    (∀ s, PinUtils.getClearPin p a = .ok s →
        4 ≤ s.length ∧ s.length ≤ 12 ∧ s.all Char.isDigit = true)
  ∧ ((p.headD 0 / 16 < 4 ∨ 12 < p.headD 0 / 16) →
        PinUtils.getClearPin p a = .error ())
  ∧ (4 ≤ p.headD 0 / 16 → p.headD 0 / 16 ≤ 12 →
        (PinUtils.substringChars (bufferToHexUpper p) 1
          (p.headD 0 / 16 + 1)).all Char.isDigit = false →
        PinUtils.getClearPin p a = .error ()) := by
  obtain ⟨b, rest, rfl⟩ : ∃ b rest, p = b :: rest := by
    cases p with
    | nil => simp at hp
    | cons b rest => exact ⟨b, rest, rfl⟩
  have hb0 : b < 256 := hb b (List.mem_cons_self _ _)
  have hdiv : b / 16 < 16 := by omega
  have hmod : (b / 16) % 16 = b / 16 := Nat.mod_eq_of_lt hdiv
  have hhx : bufferToHexUpper (b :: rest) =
      hexUpper ((b / 16) % 16) :: hexUpper (b % 16) :: bufferToHexUpper rest := by
    simp [bufferToHexUpper]
  have hlen16 : (hexUpper ((b / 16) % 16) :: hexUpper (b % 16) ::
      bufferToHexUpper rest).length = 16 := by
    rw [← hhx, bufferToHexUpper_length, hp]
  have hn : hexVal (hexUpper ((b / 16) % 16)) = b / 16 := by
    rw [hmod]; exact hexVal_hexUpper _ hdiv
  refine ⟨?_, ?_, ?_⟩
  · intro s hs
    unfold PinUtils.getClearPin at hs
    rw [hhx] at hs
    dsimp only at hs
    rw [hn] at hs
    split at hs
    · exact Except.noConfusion hs
    · rename_i hrange
      split at hs
      · rename_i hreg
        injection hs with hs
        subst hs
        have hlens : (PinUtils.substringChars
            (hexUpper ((b / 16) % 16) :: hexUpper (b % 16) ::
              bufferToHexUpper rest) 1 (b / 16 + 1)).length = b / 16 := by
          simp only [PinUtils.substringChars, List.length_drop,
            List.length_take, hlen16]
          omega
        have hdig := (Bool.and_eq_true _ _).mp hreg
        refine ⟨?_, ?_, hdig.2⟩
        · rw [hlens]; omega
        · rw [hlens]; omega
      · exact Except.noConfusion hs
  · intro hcond
    simp only [List.headD_cons] at hcond
    unfold PinUtils.getClearPin
    rw [hhx]
    dsimp only
    rw [hn, if_pos hcond]
  · intro h4 h12 hdig
    simp only [List.headD_cons] at h4 h12 hdig
    rw [hhx] at hdig
    unfold PinUtils.getClearPin
    rw [hhx]
    dsimp only
    rw [hn, if_neg (by omega)]
    have hreg : PinUtils.regexAllDigits (PinUtils.substringChars
        (hexUpper ((b / 16) % 16) :: hexUpper (b % 16) ::
          bufferToHexUpper rest) 1 (b / 16 + 1)) = false := by
      simp [PinUtils.regexAllDigits, hdig]
    rw [if_neg (by simp [hreg])]

theorem getClearPin_digits_and_range_witness :
    (4 ≤ (['1', '2', '3', '4'] : List Char).length
      ∧ (['1', '2', '3', '4'] : List Char).length ≤ 12
      ∧ (['1', '2', '3', '4'] : List Char).all Char.isDigit = true)
  ∧ PinUtils.getClearPin [0x01, 0x23, 0x45, 0xFF, 0xFF, 0xFF, 0xFF, 0xFF] [] =
      .error ()
  ∧ PinUtils.getClearPin [0x4F, 0xFF, 0xFF, 0xFF, 0xFF, 0xFF, 0xFF, 0xFF] [] =
      .error () :=
  ⟨(getClearPin_digits_and_range [0x41, 0x23, 0x45, 0xFF, 0xFF, 0xFF, 0xFF, 0xFF]
      [] (by decide) (by decide)).1 ['1', '2', '3', '4'] (by decide),
   (getClearPin_digits_and_range [0x01, 0x23, 0x45, 0xFF, 0xFF, 0xFF, 0xFF, 0xFF]
      [] (by decide) (by decide)).2.1 (by decide),
   (getClearPin_digits_and_range [0x4F, 0xFF, 0xFF, 0xFF, 0xFF, 0xFF, 0xFF, 0xFF]
      [] (by decide) (by decide)).2.2 (by decide) (by decide) (by decide)⟩
